import Mathlib

/- Verification of the DICOM archiving pipeline (dicom_archive.py).

   The script reads a DICOM source directory, packs it into a tar, compresses
   it, derives a date-aware archive name, seals a final bundle (compressed
   payload + summary + provenance log), removes the intermediate artifacts and
   optionally inserts or updates a record in the LORIS database registry.

   The embedding below translates the `main` of the script into a pure function
   over an explicit environment (filesystem contents, directory/permission
   oracles, the source directory listing, the registry state and the metadata
   summary produced by the external extraction service).  Every externally
   visible effect of a run is recorded in an event trace, so that ordering
   and frame properties of the pipeline can be stated and proved. -/

namespace DicomArchive

/-- Calendar date (scan date) as carried by the metadata summary. -/
structure Date where
  year : Nat
  month : Nat
  day : Nat
deriving DecidableEq, Repr

/-- Modelled from the spec: the essential fields of the Summary, produced by the
external metadata extraction collaborator (`lib.dicom.summary_make`, not part
of the sources): a globally unique `study_uid` and an optional `scan_date`. -/
structure SummaryInfo where
  study_uid : String
  scan_date : Option Date
deriving DecidableEq, Repr

/-- Modelled from the spec: the Summary object; the pipeline only reads
`summary.info`. -/
structure Summary where
  info : SummaryInfo
deriving DecidableEq, Repr

/-- Modelled from the spec: the ProvenanceLog record built by
`lib.dicom.dicom_log.make` (module not part of the sources): source path,
target (final archive) path, the two intermediate checksums, and the final
archive checksum which is filled in only after sealing. -/
structure DicomLog where
  source_path : String
  target_path : String
  tarball_md5_sum : String
  zipball_md5_sum : String
  archive_md5_sum : Option String
deriving DecidableEq, Repr

/-- Modelled from the spec: a registry (database) record for an archived
study: keyed by `study_uid`, holding an id and the serialized archiving log
used in conflict messages. -/
structure DbArchiveRecord where
  id : Nat
  study_uid : String
  archive_log : String
deriving DecidableEq, Repr

/-- The registry state: the list of study records. -/
abbrev Registry := List DbArchiveRecord

/-- Modelled from the spec: the distinct exit statuses of `lib.exitcode`
(module not part of the sources); one distinct status per error kind.
`TARGET_EXISTS_NO_CLOBBER` is the `TargetExists` of the spec, `CREATE_DIR_FAILURE`
its `DirectoryUnusable`, `INSERT_FAILURE` its `InsertConflict`,
`UPDATE_FAILURE` its `UpdateConflict`; `PYTHON_EXCEPTION` stands for an
uncaught Python exception terminating the process. -/
inductive ExitCode where
  | INVALID_ARG
  | TARGET_EXISTS_NO_CLOBBER
  | CREATE_DIR_FAILURE
  | INSERT_FAILURE
  | UPDATE_FAILURE
  | PYTHON_EXCEPTION
deriving DecidableEq, Repr

/-- A fatal termination of the run: `print_error_exit(message, code)`. -/
structure Failure where
  code : ExitCode
  message : String
deriving DecidableEq, Repr

/-- One entry of a tar container: the path passed to `tarfile.add` and the
member name it is stored under (`arcname`; defaults to the path itself). -/
structure TarEntry where
  name : String
  arcname : String
deriving DecidableEq, Repr

/-- Externally visible effects of a run, in order of occurrence. -/
inductive Event where
  | warn (msg : String)
  | guardCheck (path : String)
  | lookupStudy (uid : String)
  | writeTarFile (path : String) (entries : List TarEntry)
  | writeFile (path : String)
  | hashFile (path : String)
  | makeDir (path : String)
  | removeFile (path : String)
  | insertOp (uid : String)
  | updateOp (id : Nat) (uid : String)
deriving DecidableEq, Repr

/-- Does the event write one of the archive files (tar, zip, summary, log or
final bundle)? -/
def Event.isFileWrite : Event → Bool
  | .writeTarFile _ _ => true
  | .writeFile _ => true
  | _ => false

/-- Does the event mutate the registry (insert or update)? -/
def Event.isRegistryWrite : Event → Bool
  | .insertOp _ => true
  | .updateOp _ _ => true
  | _ => false

/-- Is the event a warning? -/
def Event.isWarn : Event → Bool
  | .warn _ => true
  | _ => false

/-- The typed command-line arguments of the script (lines 107-115). -/
structure Config where
  profile : Option String
  source : String
  target : String
  verbose : Bool
  today : Bool
  year : Bool
  overwrite : Bool
  db_insert : Bool
  db_update : Bool
deriving DecidableEq, Repr

/-- The external world of one run: the set of existing filesystem paths, the
directory/permission oracles behind `os.path.isdir` and `os.access`, the
direct listing of the source directory (`os.listdir`), the registry state
behind the database connection, the Summary returned by the extraction
service, and the content-hash oracle behind `lib.dicom.text.make_hash`. -/
structure Env where
  fs : List String
  isdir : String → Bool
  readable : String → Bool
  writable : String → Bool
  listing : List String
  registry : Registry
  summary : Summary
  hash : String → String

/-- The observable outcome of a run: normal or fatal termination, the event
trace, the final filesystem contents and the final registry state. -/
structure RunOutcome where
  result : Except Failure Unit
  trace : List Event
  fs : List String
  registry : Registry

/-- Prefix the trace of an outcome with events that already happened. -/
def withTrace (pre : List Event) (o : RunOutcome) : RunOutcome :=
  ⟨o.result, pre ++ o.trace, o.fs, o.registry⟩

/- ## String helpers (os.path fragments used by the script) -/

/-- The while loop of lines 147-148: strip every trailing `/` from the source
path (`while arg_source.endswith('/'): arg_source = arg_source[:-1]`). -/
def strip_trailing_slashes (s : String) : String :=
  ⟨(s.data.reverse.dropWhile (fun c => c == '/')).reverse⟩

/-- Translation of `os.path.basename`: everything after the last `/` of the path (the whole
path when it has no `/`). -/
def basename (s : String) : String :=
  ⟨(s.data.reverse.takeWhile (fun c => c != '/')).reverse⟩

/-- The derived artifact paths of lines 147-155: the stripped source path,
its base name, and the four intermediate artifact paths. -/
structure Paths where
  arg_source : String
  base_name : String
  tar_path : String
  zip_path : String
  summary_path : String
  log_path : String
deriving DecidableEq, Repr

/-- Lines 147-155: compute the stripped source, the base name and the four
intermediate artifact paths from the source and target arguments. -/
def make_paths (source target : String) : Paths :=
  let arg_source := strip_trailing_slashes source
  let base_name := basename arg_source
  { arg_source := arg_source
    base_name := base_name
    tar_path := target ++ "/" ++ base_name ++ ".tar"
    zip_path := target ++ "/" ++ base_name ++ ".tar.gz"
    summary_path := target ++ "/" ++ base_name ++ ".meta"
    log_path := target ++ "/" ++ base_name ++ ".log" }

/- ## The Path/Collision Guard (lines 29-40) -/

/-- Lines 29-40, `check_create_file(path)`: if the path exists and
`--overwrite` is set, emit one warning and proceed; if it exists and
`--overwrite` is not set, terminate with `TARGET_EXISTS_NO_CLOBBER`; if it
does not exist, proceed silently.  Returns the warning events emitted. -/
def check_create_file (arg_overwrite : Bool) (fs : List String) (path : String) :
    Except Failure (List Event) :=
  if path ∈ fs then
    if arg_overwrite then
      Except.ok [Event.warn ("Overwriting \x27" ++ path ++ "\x27")]
    else
      Except.error ⟨ExitCode.TARGET_EXISTS_NO_CLOBBER,
        "File or directory \x27" ++ path ++
          "\x27 already exists. Use option \x27--overwrite\x27 to overwrite it."⟩
  else Except.ok []

/- ## Registry (lib.dicom.dicom_database, lib.dicom.dicom_log) -/

/-- Modelled from the spec: the lossless text rendering of a ProvenanceLog
(`lib.dicom.dicom_log.write_to_string`, module not part of the sources). -/
def dicom_log_write_to_string (log : DicomLog) : String :=
  log.source_path ++ "\n" ++ log.target_path ++ "\n" ++ log.tarball_md5_sum ++ "\n"
    ++ log.zipball_md5_sum ++ "\n"
    ++ (match log.archive_md5_sum with
        | some h => h
        | none => "")

/-- Modelled from the spec: `lib.dicom.dicom_log.make(source, archive_path,
tarball_md5_sum, zipball_md5_sum)` (module not part of the sources) builds
the ProvenanceLog with the final archive checksum still unset. -/
def dicom_log_make (source archive_path tarball_md5_sum zipball_md5_sum : String) : DicomLog :=
  { source_path := source
    target_path := archive_path
    tarball_md5_sum := tarball_md5_sum
    zipball_md5_sum := zipball_md5_sum
    archive_md5_sum := none }

/-- Modelled from the spec: `lib.dicom.dicom_database.get_archive_with_study_uid`
(module not part of the sources): `lookup(study_uid) -> Option StudyRecord`,
returning the pair (record id, prior archiving log) the script indexes as
`db_archive[0]` and `db_archive[1]`; with no connection there is nothing to
find. -/
def get_archive_with_study_uid (db : Option Registry) (uid : String) :
    Option (Nat × String) :=
  match db with
  | none => none
  | some reg => (reg.find? (fun r => r.study_uid == uid)).map (fun r => (r.id, r.archive_log))

/-- Modelled from the spec: `lib.dicom.dicom_database.insert(db, log, summary)`
(module not part of the sources) creates a new StudyRecord keyed by the
study uid of the Summary, storing the serialized ProvenanceLog. -/
def db_insert_op (reg : Registry) (log : DicomLog) (summary : Summary) : Registry :=
  reg ++ [⟨reg.length, summary.info.study_uid, dicom_log_write_to_string log⟩]

/-- Modelled from the spec: `lib.dicom.dicom_database.update(db, id, log,
summary)` (module not part of the sources) replaces the record with the given
id by one built from the new ProvenanceLog and Summary. -/
def db_update_op (reg : Registry) (id : Nat) (log : DicomLog) (summary : Summary) : Registry :=
  reg.map (fun r =>
    if r.id = id then ⟨id, summary.info.study_uid, dicom_log_write_to_string log⟩ else r)

/-- The conflict message of lines 171-178: study already inserted, with the
archiving log of the prior record appended. -/
def insert_conflict_message (uid : String) (prior_log : String) : String :=
  "Study \x27" ++ uid ++ "\x27 is already inserted in the database\n" ++
    "Previous archiving log:\n" ++ prior_log

/- ## Pack, naming, seal, cleanup -/

/-- Lines 188-190: `for file in os.listdir(arg_source):
tar.add(arg_source + '/' + file)` — one `add` call per direct entry of the source directory, each
referencing the entry by its name under the source path; `tarfile.add`
defaults the member name (`arcname`) to the path it was given. -/
def pack_tar (arg_source : String) (listing : List String) : List TarEntry :=
  listing.map (fun file => ⟨arg_source ++ "/" ++ file, arg_source ++ "/" ++ file⟩)

/-- Zero-pad a number to two digits. -/
def pad2 (n : Nat) : String :=
  if n < 10 then "0" ++ Nat.repr n else Nat.repr n

/-- Zero-pad a number to four digits. -/
def pad4 (n : Nat) : String :=
  if n < 10 then "000" ++ Nat.repr n
  else if n < 100 then "00" ++ Nat.repr n
  else if n < 1000 then "0" ++ Nat.repr n
  else Nat.repr n

/-- Modelled from the spec: `lib.dicom.text.write_date` (module not part of
the sources) renders a date as `YYYY-MM-DD`. -/
def write_date (d : Date) : String :=
  pad4 d.year ++ "-" ++ pad2 d.month ++ "-" ++ pad2 d.day

/-- Lines 220-231, pure part of the destination-directory choice: the year
subdirectory `{target}/{scan_date.year}` exactly when `--year` is set and a
scan date is present, the bare target directory otherwise. -/
def resolve_dir (arg_target : String) (arg_year : Bool) (scan_date : Option Date) : String :=
  match arg_year, scan_date with
  | true, some d => arg_target ++ "/" ++ Nat.repr d.year
  | _, _ => arg_target

/-- Lines 220-237: the final archive path — destination directory per
`resolve_dir`, filename `DCM_{scan date}_{base}.tar` when a scan date is
known and `DCM_{base}.tar` otherwise. -/
def resolve_archive_path (arg_target base_name : String) (arg_year : Bool)
    (scan_date : Option Date) : String :=
  match scan_date with
  | some d =>
      resolve_dir arg_target arg_year scan_date ++ "/DCM_" ++ write_date d ++ "_"
        ++ base_name ++ ".tar"
  | none => resolve_dir arg_target arg_year scan_date ++ "/DCM_" ++ base_name ++ ".tar"

/-- Lines 257-260: the three entries of the final bundle, each added under its base
name (`tar.add(path, os.path.basename(path))`). -/
def seal_entries (zip_path summary_path log_path : String) : List TarEntry :=
  [⟨zip_path, basename zip_path⟩,
   ⟨summary_path, basename summary_path⟩,
   ⟨log_path, basename log_path⟩]

/-- Translation of `os.remove(path)`: removes the path, raising an uncaught
`FileNotFoundError` (modelled as a `PYTHON_EXCEPTION` failure) when the path
does not exist. -/
def os_remove (fs : List String) (path : String) : Except Failure (List String) :=
  if path ∈ fs then Except.ok (fs.erase path)
  else Except.error ⟨ExitCode.PYTHON_EXCEPTION, "FileNotFoundError: " ++ path⟩

/-- Lines 264-267: remove the intermediate artifacts one after the other;
the first failing removal terminates the run, keeping the removals already
performed in the trace. -/
def cleanup (fs : List String) (paths : List String) :
    List Event × List String × Option Failure :=
  match paths with
  | [] => ([], fs, none)
  | p :: rest =>
    match os_remove fs p with
    | .error f => ([], fs, some f)
    | .ok fs1 =>
      let r := cleanup fs1 rest
      (Event.removeFile p :: r.1, r.2.1, r.2.2)

/- ## The run, staged to mirror the paragraphs of `main` (lines 28-280) -/

/-- The id `db_archive[0]` after the `cast` of line 277 (0 when absent, which the
script has ruled out before reaching the update). -/
def dbar_id (dbar : Option (Nat × String)) : Nat :=
  match dbar with
  | some r => r.1
  | none => 0

/-- The text `db_archive[1]`, the archiving log of the prior record (line 175). -/
def dbar_log (dbar : Option (Nat × String)) : String :=
  match dbar with
  | some r => r.2
  | none => ""

/-- The advisory of lines 208-212. -/
def no_scan_date_warning : String :=
  "No scan date was found in the DICOMs, consider using argument \x27--today\x27 " ++
    "to use today\x27s date as the scan date."

/-- The advisory of lines 214-218. -/
def year_ignored_warning : String :=
  "Argument \x27--year\x27 was provided but no scan date was found in the DICOMs, " ++
    "the argument will be ignored."

/-- Lines 262-278: remove the four intermediates (`os.remove`, unguarded),
hash the sealed bundle into the `archive_md5_sum` field of the log, then perform the
registry insert or update when requested. -/
def finish_run (cfg : Config) (env : Env) (dbar : Option (Nat × String))
    (log : DicomLog) (fs : List String) (p : Paths) : RunOutcome :=
  match cleanup fs [p.tar_path, p.zip_path, p.summary_path, p.log_path] with
  | (evs, fs1, some f) => ⟨.error f, evs, fs1, env.registry⟩
  | (evs, fs1, none) =>
    let log1 := { log with archive_md5_sum := some (env.hash log.target_path) }
    let insEvs := if cfg.db_insert then [Event.insertOp env.summary.info.study_uid] else []
    let reg1 := if cfg.db_insert then db_insert_op env.registry log1 env.summary else env.registry
    let updEvs :=
      if cfg.db_update then [Event.updateOp (dbar_id dbar) env.summary.info.study_uid] else []
    let reg2 := if cfg.db_update then db_update_op reg1 (dbar_id dbar) log1 env.summary else reg1
    ⟨.ok (), evs ++ [Event.hashFile log.target_path] ++ insEvs ++ updEvs, fs1, reg2⟩

/-- Lines 241-260: build the ProvenanceLog, write the summary file and the
log file, seal the final bundle at the archive path, then finish. -/
def run_seal (cfg : Config) (env : Env) (dbar : Option (Nat × String))
    (p : Paths) (fs : List String) (archive_path : String) : RunOutcome :=
  let log := dicom_log_make p.arg_source archive_path (env.hash p.tar_path) (env.hash p.zip_path)
  withTrace
    [Event.writeFile p.summary_path, Event.writeFile p.log_path,
     Event.writeTarFile archive_path (seal_entries p.zip_path p.summary_path p.log_path)]
    (finish_run cfg env dbar log (archive_path :: p.log_path :: p.summary_path :: fs) p)

/-- Lines 233-237: the archive filename under an already chosen destination
directory. -/
def guard_archive_path (dir_path base_name : String) (scan_date : Option Date) : String :=
  match scan_date with
  | some d => dir_path ++ "/DCM_" ++ write_date d ++ "_" ++ base_name ++ ".tar"
  | none => dir_path ++ "/DCM_" ++ base_name ++ ".tar"

/-- Lines 233-239: compute the final archive path from the destination
directory and the scan date, then re-validate it with the Guard. -/
def run_archive_guard (cfg : Config) (env : Env) (dbar : Option (Nat × String))
    (p : Paths) (fs : List String) (dir_path : String) : RunOutcome :=
  let archive_path := guard_archive_path dir_path p.base_name env.summary.info.scan_date
  match check_create_file cfg.overwrite fs archive_path with
  | .error f => ⟨.error f, [Event.guardCheck archive_path], fs, env.registry⟩
  | .ok w => withTrace (Event.guardCheck archive_path :: w)
      (run_seal cfg env dbar p fs archive_path)

/-- Lines 220-231: when `--year` is set and a scan date is present, use the
year subdirectory — creating it when absent, failing with
`CREATE_DIR_FAILURE` when present but not a writable directory; otherwise
use the bare target directory. -/
def run_year_dir (cfg : Config) (env : Env) (dbar : Option (Nat × String))
    (p : Paths) (fs : List String) : RunOutcome :=
  match cfg.year, env.summary.info.scan_date with
  | true, some d =>
    let dir_path := cfg.target ++ "/" ++ Nat.repr d.year
    if dir_path ∈ fs then
      if !env.isdir dir_path || !env.writable dir_path then
        ⟨.error ⟨ExitCode.CREATE_DIR_FAILURE,
          "Path \x27" ++ dir_path ++ "\x27 exists but is not a writable directory."⟩,
          [], fs, env.registry⟩
      else run_archive_guard cfg env dbar p fs dir_path
    else
      withTrace [Event.makeDir dir_path]
        (run_archive_guard cfg env dbar p (dir_path :: fs) dir_path)
  | _, _ => run_archive_guard cfg env dbar p fs cfg.target

/-- Lines 206-218: the two scan-date advisories, then the destination
directory choice. -/
def run_naming (cfg : Config) (env : Env) (dbar : Option (Nat × String))
    (p : Paths) (fs : List String) : RunOutcome :=
  let w5 := if !cfg.today && env.summary.info.scan_date.isNone
    then [Event.warn no_scan_date_warning] else []
  let w6 := if cfg.year && env.summary.info.scan_date.isNone
    then [Event.warn year_ignored_warning] else []
  withTrace (w5 ++ w6) (run_year_dir cfg env dbar p fs)

/-- Lines 186-204: pack the source listing into the tar, hash it, compress
it into the zip, hash that; both files now exist. -/
def run_pack (cfg : Config) (env : Env) (dbar : Option (Nat × String)) (p : Paths) : RunOutcome :=
  withTrace
    [Event.writeTarFile p.tar_path (pack_tar p.arg_source env.listing),
     Event.hashFile p.tar_path,
     Event.writeFile p.zip_path,
     Event.hashFile p.zip_path]
    (run_naming cfg env dbar p (p.zip_path :: p.tar_path :: env.fs))

/-- Lines 162-184: query the registry for the study uid of the Summary (the call
of line 168 is made unconditionally), then enforce the insert-absent /
update-present preconditions, aborting with `INSERT_FAILURE` (the message
carrying the archiving log of the prior record) or `UPDATE_FAILURE`. -/
def run_lookup (cfg : Config) (env : Env) (p : Paths) : RunOutcome :=
  let db : Option Registry := if cfg.profile.isSome then some env.registry else none
  let db_archive := get_archive_with_study_uid db env.summary.info.study_uid
  withTrace [Event.lookupStudy env.summary.info.study_uid]
    (if cfg.db_insert && db_archive.isSome then
      ⟨.error ⟨ExitCode.INSERT_FAILURE,
        insert_conflict_message env.summary.info.study_uid (dbar_log db_archive)⟩,
        [], env.fs, env.registry⟩
    else if cfg.db_update && db_archive.isNone then
      ⟨.error ⟨ExitCode.UPDATE_FAILURE,
        "No study \x27" ++ env.summary.info.study_uid ++ "\x27 found in the database"⟩,
        [], env.fs, env.registry⟩
    else run_pack cfg env db_archive p)

/-- Lines 28-280, `main`: argument checks (121-143), artifact paths and their
Guard checks (147-160), then the lookup and the pipeline. -/
def main (cfg : Config) (env : Env) : RunOutcome :=
  if cfg.db_insert && cfg.db_update then
    ⟨.error ⟨ExitCode.INVALID_ARG,
      "Arguments \x27--db-insert\x27 and \x27--db-update\x27 must not be set both " ++
        "at the same time."⟩, [], env.fs, env.registry⟩
  else if (cfg.db_insert || cfg.db_update) && !cfg.profile.isSome then
    ⟨.error ⟨ExitCode.INVALID_ARG,
      "Argument \x27--profile\x27 must be set when a \x27--db-*\x27 argument is set."⟩,
      [], env.fs, env.registry⟩
  else if !env.isdir cfg.source || !env.readable cfg.source then
    ⟨.error ⟨ExitCode.INVALID_ARG,
      "Argument \x27--source\x27 must be a readable directory path."⟩,
      [], env.fs, env.registry⟩
  else if !env.isdir cfg.target || !env.writable cfg.target then
    ⟨.error ⟨ExitCode.INVALID_ARG,
      "Argument \x27--target\x27 must be a writable directory path."⟩,
      [], env.fs, env.registry⟩
  else
    let p := make_paths cfg.source cfg.target
    match check_create_file cfg.overwrite env.fs p.tar_path with
    | .error f => ⟨.error f, [Event.guardCheck p.tar_path], env.fs, env.registry⟩
    | .ok w1 => withTrace (Event.guardCheck p.tar_path :: w1)
      (match check_create_file cfg.overwrite env.fs p.zip_path with
      | .error f => ⟨.error f, [Event.guardCheck p.zip_path], env.fs, env.registry⟩
      | .ok w2 => withTrace (Event.guardCheck p.zip_path :: w2)
        (match check_create_file cfg.overwrite env.fs p.summary_path with
        | .error f => ⟨.error f, [Event.guardCheck p.summary_path], env.fs, env.registry⟩
        | .ok w3 => withTrace (Event.guardCheck p.summary_path :: w3)
          (match check_create_file cfg.overwrite env.fs p.log_path with
          | .error f => ⟨.error f, [Event.guardCheck p.log_path], env.fs, env.registry⟩
          | .ok w4 => withTrace (Event.guardCheck p.log_path :: w4)
            (run_lookup cfg env p))))

/- ## Spec-side definition for the Naming Resolver comparison -/

/-- Follows the words of the spec (§4.3 Date-Based Naming Resolver): the
destination directory is `{target}/{scan_date.year}` exactly when
`year_bucket` is requested and `scan_date` is present, otherwise the bare
target directory; the filename is `DCM_{scan date as YYYY-MM-DD}_{base}.tar`
when a scan date is known, else `DCM_{base}.tar`; deterministic in its four
inputs (`use_today` does not enter the name). -/
def resolve_archive_path_spec (target base_name : String) (scan_date : Option Date)
    (use_today year_bucket : Bool) : String :=
  let dir :=
    match scan_date, year_bucket with
    | some d, true => target ++ "/" ++ Nat.repr d.year
    | _, _ => target
  match scan_date with
  | some d => dir ++ "/DCM_" ++ write_date d ++ "_" ++ base_name ++ ".tar"
  | none => dir ++ "/DCM_" ++ base_name ++ ".tar"

/- ## Concrete run used by witnesses and counterexamples -/

/-- A concrete argument vector: no registry flags, no profile, no overwrite,
`--today` set, no year bucketing. -/
def cfgW : Config :=
  { profile := none, source := "src/Sub", target := "t", verbose := false,
    today := true, year := false, overwrite := false,
    db_insert := false, db_update := false }

/-- A concrete environment on which `cfgW` runs successfully: empty target,
two DICOM files, no scan date in the summary. -/
def envW : Env :=
  { fs := [], isdir := fun _ => true, readable := fun _ => true,
    writable := fun _ => true, listing := ["a.dcm", "b.dcm"], registry := [],
    summary := ⟨⟨"1.2.3", none⟩⟩, hash := fun _ => "H" }

/-- Arguments requesting a database insert. -/
def cfgIns : Config := { cfgW with profile := some "prof", db_insert := true }

/-- An environment whose registry already holds study `1.2.3` with a prior
archiving log. -/
def envIns : Env := { envW with registry := [⟨7, "1.2.3", "PRIORLOG"⟩] }

/-- Arguments requesting a database update. -/
def cfgUpd : Config := { cfgW with profile := some "prof", db_update := true }

@[simp] theorem withTrace_result (pre : List Event) (o : RunOutcome) :
    (withTrace pre o).result = o.result := rfl

@[simp] theorem withTrace_trace (pre : List Event) (o : RunOutcome) :
    (withTrace pre o).trace = pre ++ o.trace := rfl

@[simp] theorem withTrace_fs (pre : List Event) (o : RunOutcome) :
    (withTrace pre o).fs = o.fs := rfl

@[simp] theorem withTrace_registry (pre : List Event) (o : RunOutcome) :
    (withTrace pre o).registry = o.registry := rfl


/- ## Helper lemmas about strings and the derived paths -/

theorem data_mk (l : List Char) : (String.mk l).data = l := rfl

theorem string_append_left_cancel {a x y : String} (h : a ++ x = a ++ y) : x = y := by
  apply String.ext
  have hd := congrArg String.data h
  rw [String.data_append, String.data_append] at hd
  exact List.append_cancel_left hd

theorem append_ne_of_suffix_ne (a : String) {x y : String} (h : x ≠ y) : a ++ x ≠ a ++ y :=
  fun he => h (string_append_left_cancel he)

/-- A base name never contains a path separator. -/
theorem basename_no_slash (s : String) : '/' ∉ (basename s).data := by
  intro hmem
  rw [basename, data_mk, List.mem_reverse] at hmem
  have := List.mem_takeWhile_imp hmem
  simp at this

theorem takeWhile_append_all {p : Char → Bool} {l1 : List Char} (h : ∀ a ∈ l1, p a = true)
    {x : Char} (hx : p x = false) (l2 : List Char) :
    (l1 ++ x :: l2).takeWhile p = l1 := by
  induction l1 with
  | nil => simp [List.takeWhile_cons, hx]
  | cons a l ih =>
    have ha := h a (by simp)
    simp only [List.cons_append, List.takeWhile_cons, ha, if_true]
    rw [ih (fun b hb => h b (by simp [hb]))]

/-- Evaluation of `os.path.basename` on a path whose last component has no separator. -/
theorem basename_append (t r : String) (hr : '/' ∉ r.data) : basename (t ++ "/" ++ r) = r := by
  apply String.ext
  rw [basename, data_mk, String.data_append, String.data_append,
    show ("/" : String).data = ['/'] from rfl, List.reverse_append, List.reverse_append]
  rw [show (['/'] : List Char).reverse ++ t.data.reverse = '/' :: t.data.reverse from rfl]
  rw [takeWhile_append_all (fun a ha => ?_) (by simp) t.data.reverse, List.reverse_reverse]
  have : a ∈ r.data := List.mem_reverse.1 ha
  simp only [bne_iff_ne, ne_eq]
  intro he
  exact hr (he ▸ this)

theorem dropWhile_replicate_append (p : Char → Bool) (x : Char) (hx : p x = true)
    (n : Nat) (l : List Char) :
    (List.replicate n x ++ l).dropWhile p = l.dropWhile p := by
  induction n with
  | zero => simp
  | succ k ih => simp [List.replicate_succ, List.dropWhile_cons, hx, ih]

/-- The stripping loop of lines 147-148 is insensitive to trailing slashes. -/
theorem strip_trailing_slashes_append (s : String) (n : Nat) :
    strip_trailing_slashes (s ++ String.mk (List.replicate n '/')) = strip_trailing_slashes s := by
  unfold strip_trailing_slashes
  apply congrArg
  apply congrArg List.reverse
  rw [String.data_append, data_mk, List.reverse_append, List.reverse_replicate]
  exact dropWhile_replicate_append _ '/' (by simp) n _

/-- The final archive path differs from every path of the form
`target ++ "/" ++ base ++ ext` with a short extension: its filename part
carries at least the extra `DCM_` prefix. -/
theorem archive_ne_intermediate (t B ext : String) (y : Bool) (sd : Option Date)
    (hext : ext.length < 8) :
    resolve_archive_path t B y sd ≠ t ++ "/" ++ B ++ ext := by
  intro h
  rcases sd with _ | d <;> cases y <;>
    simp only [resolve_archive_path, resolve_dir] at h <;>
    have hl := congrArg String.length h <;>
    simp only [String.length_append,
      show ("/" : String).length = 1 from rfl,
      show ("/DCM_" : String).length = 5 from rfl,
      show ("_" : String).length = 1 from rfl,
      show (".tar" : String).length = 4 from rfl] at hl <;>
    omega

/-- The four intermediate artifact paths and the final archive path are
pairwise distinct, for every target, source and optional scan date. -/
theorem five_paths_pairwise_ne (source target : String) (y : Bool) (sd : Option Date) :
    List.Pairwise (fun a b => a ≠ b)
      [(make_paths source target).tar_path, (make_paths source target).zip_path,
       (make_paths source target).summary_path, (make_paths source target).log_path,
       resolve_archive_path target (make_paths source target).base_name y sd] := by
  simp only [make_paths, List.pairwise_cons, List.mem_cons, List.mem_singleton,
    List.not_mem_nil, or_false, false_implies, implies_true, and_true]
  refine ⟨?_, ?_, ?_, ?_, trivial, List.Pairwise.nil⟩
  · rintro x (rfl | rfl | rfl | rfl)
    · exact append_ne_of_suffix_ne _ (by decide)
    · exact append_ne_of_suffix_ne _ (by decide)
    · exact append_ne_of_suffix_ne _ (by decide)
    · exact fun he => archive_ne_intermediate _ _ ".tar" y sd (by decide) he.symm
  · rintro x (rfl | rfl | rfl)
    · exact append_ne_of_suffix_ne _ (by decide)
    · exact append_ne_of_suffix_ne _ (by decide)
    · exact fun he => archive_ne_intermediate _ _ ".tar.gz" y sd (by decide) he.symm
  · rintro x (rfl | rfl)
    · exact append_ne_of_suffix_ne _ (by decide)
    · exact fun he => archive_ne_intermediate _ _ ".meta" y sd (by decide) he.symm
  · rintro x rfl
    exact fun he => archive_ne_intermediate _ _ ".log" y sd (by decide) he.symm

/- ## Helper lemmas about the run stages -/

@[simp] theorem withTrace_nil (o : RunOutcome) : withTrace [] o = o := rfl

@[simp] theorem withTrace_withTrace (a b : List Event) (o : RunOutcome) :
    withTrace a (withTrace b o) = withTrace (a ++ b) o := by
  simp [withTrace, List.append_assoc]

theorem sublist_skip_cons {l1 l2 : List Event} (x : Event) (h : List.Sublist l1 l2) :
    List.Sublist l1 (x :: l2) := h.trans (List.sublist_cons_self x l2)

theorem sublist_skip_append {l1 l2 : List Event} (X : List Event) (h : List.Sublist l1 l2) :
    List.Sublist l1 (X ++ l2) := h.trans (List.sublist_append_right X l2)

theorem pair_sublist {a b : Event} {X Y : List Event} (ha : a ∈ X) (hb : b ∈ Y) :
    List.Sublist [a, b] (X ++ Y) := by
  have h1 : List.Sublist [a] X := List.singleton_sublist.2 ha
  have h2 : List.Sublist [b] Y := List.singleton_sublist.2 hb
  simpa using List.Sublist.append h1 h2

/-- The archive filename under the resolved directory is the resolved
archive path. -/
theorem guard_archive_path_resolve (t B : String) (y : Bool) (sd : Option Date) :
    guard_archive_path (resolve_dir t y sd) B sd = resolve_archive_path t B y sd := by
  cases sd <;> rfl

/-- A successful guard check emits no event other than at most one warning. -/
theorem check_ok_shape {ow : Bool} {fs : List String} {q : String} {w : List Event}
    (h : check_create_file ow fs q = .ok w) :
    w = [] ∨ ∃ m, w = [Event.warn m] := by
  by_cases hq : q ∈ fs
  · cases ow with
    | false => simp [check_create_file, hq] at h
    | true =>
      simp only [check_create_file, hq, if_true, Except.ok.injEq] at h
      exact Or.inr ⟨_, h.symm⟩
  · simp only [check_create_file, hq, if_false, if_neg hq, Except.ok.injEq] at h
    exact Or.inl h.symm

/-- Every event produced by `cleanup` is a file removal. -/
theorem cleanup_events_shape (ps : List String) :
    ∀ (fs : List String), ∀ e ∈ (cleanup fs ps).1, ∃ q, e = Event.removeFile q := by
  induction ps with
  | nil => intro fs e he; simp [cleanup] at he
  | cons p rest ih =>
    intro fs e he
    rw [cleanup] at he
    cases h : os_remove fs p with
    | error f => rw [h] at he; simp at he
    | ok fs1 =>
      rw [h] at he
      simp only [List.mem_cons] at he
      rcases he with rfl | he2
      · exact ⟨p, rfl⟩
      · exact ih fs1 e he2

/-- A removal of a path absent from the filesystem makes `cleanup` fail,
whatever happened before it. -/
theorem cleanup_fails_of_missing {q : String} (ps : List String) :
    ∀ (fs : List String), q ∈ ps → q ∉ fs → ((cleanup fs ps).2.2).isSome = true := by
  induction ps with
  | nil => intro fs hq; simp at hq
  | cons p rest ih =>
    intro fs hq hnot
    rw [cleanup]
    cases h : os_remove fs p with
    | error f => simp
    | ok fs1 =>
      have hpfs : p ∈ fs := by
        by_contra hp
        simp [os_remove, hp] at h
      have hqp : q ≠ p := fun he => hnot (he ▸ hpfs)
      have hqrest : q ∈ rest := by
        rcases List.mem_cons.1 hq with rfl | hr
        · exact absurd rfl hqp
        · exact hr
      have hfs1 : q ∉ fs1 := by
        have : fs1 = fs.erase p := by simp [os_remove, hpfs] at h; exact h.symm
        rw [this]
        intro hmem
        exact hnot (List.mem_of_mem_erase hmem)
      simpa using ih fs1 hqrest hfs1

/-- When the four intermediates exist (and are pairwise distinct paths),
`finish_run` removes them in order, hashes the sealed bundle and performs
the requested registry operation. -/
theorem finish_run_eq (cfg : Config) (env : Env) (dbar : Option (Nat × String))
    (log : DicomLog) (fs : List String) (p : Paths)
    (h1 : p.tar_path ∈ fs)
    (h2 : p.zip_path ∈ fs) (n21 : p.zip_path ≠ p.tar_path)
    (h3 : p.summary_path ∈ fs) (n31 : p.summary_path ≠ p.tar_path)
    (n32 : p.summary_path ≠ p.zip_path)
    (h4 : p.log_path ∈ fs) (n41 : p.log_path ≠ p.tar_path) (n42 : p.log_path ≠ p.zip_path)
    (n43 : p.log_path ≠ p.summary_path) :
    finish_run cfg env dbar log fs p =
      ⟨.ok (),
       Event.removeFile p.tar_path :: Event.removeFile p.zip_path ::
         Event.removeFile p.summary_path :: Event.removeFile p.log_path ::
         Event.hashFile log.target_path ::
         ((if cfg.db_insert then [Event.insertOp env.summary.info.study_uid] else []) ++
          (if cfg.db_update then [Event.updateOp (dbar_id dbar) env.summary.info.study_uid] else [])),
       (((fs.erase p.tar_path).erase p.zip_path).erase p.summary_path).erase p.log_path,
       (if cfg.db_update then
          db_update_op
            (if cfg.db_insert then
              db_insert_op env.registry
                { log with archive_md5_sum := some (env.hash log.target_path) } env.summary
             else env.registry)
            (dbar_id dbar)
            { log with archive_md5_sum := some (env.hash log.target_path) } env.summary
        else
          (if cfg.db_insert then
            db_insert_op env.registry
              { log with archive_md5_sum := some (env.hash log.target_path) } env.summary
           else env.registry))⟩ := by
  have m2 : p.zip_path ∈ fs.erase p.tar_path := (List.mem_erase_of_ne n21).2 h2
  have m3 : p.summary_path ∈ (fs.erase p.tar_path).erase p.zip_path :=
    (List.mem_erase_of_ne n32).2 ((List.mem_erase_of_ne n31).2 h3)
  have m4 : p.log_path ∈ ((fs.erase p.tar_path).erase p.zip_path).erase p.summary_path :=
    (List.mem_erase_of_ne n43).2 ((List.mem_erase_of_ne n42).2 ((List.mem_erase_of_ne n41).2 h4))
  simp [finish_run, cleanup, os_remove, h1, m2, m3, m4]

/-- Stage `run_seal` unconditionally writes the summary, the log and the bundle,
then finishes. -/
theorem run_seal_eq (cfg : Config) (env : Env) (dbar : Option (Nat × String))
    (p : Paths) (fs : List String) (archive_path : String) :
    run_seal cfg env dbar p fs archive_path =
      withTrace
        [Event.writeFile p.summary_path, Event.writeFile p.log_path,
         Event.writeTarFile archive_path (seal_entries p.zip_path p.summary_path p.log_path)]
        (finish_run cfg env dbar
          (dicom_log_make p.arg_source archive_path (env.hash p.tar_path) (env.hash p.zip_path))
          (archive_path :: p.log_path :: p.summary_path :: fs) p) := rfl

/-- Stage `run_pack` unconditionally packs, hashes, compresses and hashes. -/
theorem run_pack_eq (cfg : Config) (env : Env) (dbar : Option (Nat × String)) (p : Paths) :
    run_pack cfg env dbar p =
      withTrace
        [Event.writeTarFile p.tar_path (pack_tar p.arg_source env.listing),
         Event.hashFile p.tar_path, Event.writeFile p.zip_path, Event.hashFile p.zip_path]
        (run_naming cfg env dbar p (p.zip_path :: p.tar_path :: env.fs)) := rfl

/-- Stage `run_naming` only emits advisories before choosing the directory. -/
theorem run_naming_eq (cfg : Config) (env : Env) (dbar : Option (Nat × String))
    (p : Paths) (fs : List String) :
    ∃ mid : List Event,
      run_naming cfg env dbar p fs = withTrace mid (run_year_dir cfg env dbar p fs) :=
  ⟨_, rfl⟩

/-- A successful archive-path guard: the stage is the guard event, possibly a
warning, then the seal. -/
theorem run_archive_guard_ok (cfg : Config) (env : Env) (dbar : Option (Nat × String))
    (p : Paths) (fs : List String) (dp : String)
    (h : (run_archive_guard cfg env dbar p fs dp).result = .ok ()) :
    ∃ w, check_create_file cfg.overwrite fs
        (guard_archive_path dp p.base_name env.summary.info.scan_date) = .ok w ∧
      run_archive_guard cfg env dbar p fs dp =
        withTrace
          (Event.guardCheck (guard_archive_path dp p.base_name env.summary.info.scan_date) :: w)
          (run_seal cfg env dbar p fs
            (guard_archive_path dp p.base_name env.summary.info.scan_date)) := by
  cases hck : check_create_file cfg.overwrite fs
      (guard_archive_path dp p.base_name env.summary.info.scan_date) with
  | error f =>
    rw [run_archive_guard] at h
    rw [hck] at h
    simp at h
  | ok w =>
    refine ⟨w, rfl, ?_⟩
    rw [run_archive_guard, hck]

/-- A successful directory choice: at most a directory creation, then the
archive-path guard on the resolved destination directory. -/
theorem run_year_dir_ok (cfg : Config) (env : Env) (dbar : Option (Nat × String))
    (p : Paths) (fs : List String)
    (h : (run_year_dir cfg env dbar p fs).result = .ok ()) :
    ∃ (yd : List Event) (fs2 : List String),
      (yd = [] ∨ ∃ dd, yd = [Event.makeDir dd]) ∧
      (fs2 = fs ∨ ∃ dd, fs2 = dd :: fs) ∧
      run_year_dir cfg env dbar p fs =
        withTrace yd (run_archive_guard cfg env dbar p fs2
          (resolve_dir cfg.target cfg.year env.summary.info.scan_date)) := by
  cases hy : cfg.year with
  | false =>
    refine ⟨[], fs, Or.inl rfl, Or.inl rfl, ?_⟩
    cases hsd : env.summary.info.scan_date <;>
      simp [run_year_dir, resolve_dir, hy, hsd]
  | true =>
    cases hsd : env.summary.info.scan_date with
    | none =>
      refine ⟨[], fs, Or.inl rfl, Or.inl rfl, ?_⟩
      simp [run_year_dir, resolve_dir, hy, hsd]
    | some d =>
      by_cases hmem : cfg.target ++ "/" ++ Nat.repr d.year ∈ fs
      · by_cases hbad : (!env.isdir (cfg.target ++ "/" ++ Nat.repr d.year)
            || !env.writable (cfg.target ++ "/" ++ Nat.repr d.year)) = true
        · exfalso
          simp only [run_year_dir, hy, hsd, hmem, if_true, hbad] at h
          simp at h
        · refine ⟨[], fs, Or.inl rfl, Or.inl rfl, ?_⟩
          simp only [run_year_dir, hy, hsd, hmem, if_true, hbad, if_false, resolve_dir]
          simp [hbad]
      · refine ⟨[Event.makeDir (cfg.target ++ "/" ++ Nat.repr d.year)],
          (cfg.target ++ "/" ++ Nat.repr d.year) :: fs,
          Or.inr ⟨_, rfl⟩, Or.inr ⟨_, rfl⟩, ?_⟩
        simp only [run_year_dir, hy, hsd, hmem, if_false, resolve_dir]

/-- A successful database precondition check: the stage is the lookup event
followed by the pipeline, with `db_archive` the result of the lookup. -/
theorem run_lookup_ok (cfg : Config) (env : Env) (p : Paths)
    (h : (run_lookup cfg env p).result = .ok ()) :
    run_lookup cfg env p =
      withTrace [Event.lookupStudy env.summary.info.study_uid]
        (run_pack cfg env
          (get_archive_with_study_uid
            (if cfg.profile.isSome then some env.registry else none)
            env.summary.info.study_uid) p) := by
  rw [run_lookup] at h ⊢
  by_cases hc1 : (cfg.db_insert &&
      (get_archive_with_study_uid (if cfg.profile.isSome then some env.registry else none)
        env.summary.info.study_uid).isSome) = true
  · rw [if_pos hc1] at h
    simp at h
  · rw [if_neg hc1] at h ⊢
    by_cases hc2 : (cfg.db_update &&
        (get_archive_with_study_uid (if cfg.profile.isSome then some env.registry else none)
          env.summary.info.study_uid).isNone) = true
    · rw [if_pos hc2] at h
      simp at h
    · rw [if_neg hc2]

/-- A successful guard check emits no registry write. -/
theorem check_ok_no_reg {ow : Bool} {fs : List String} {q : String} {w : List Event}
    (h : check_create_file ow fs q = .ok w) :
    ∀ e ∈ w, e.isRegistryWrite = false := by
  intro e he
  rcases check_ok_shape h with rfl | ⟨m, rfl⟩
  · simp at he
  · rw [List.mem_singleton] at he
    subst he
    rfl

/-- Every run either terminates during the argument checks or the four guard
checks with an error — leaving the filesystem and the registry untouched and
having performed no registry write — or passes them and continues into the
lookup. -/
theorem main_cases (cfg : Config) (env : Env) :
    (∃ f tr, main cfg env = ⟨.error f, tr, env.fs, env.registry⟩ ∧
      ∀ e ∈ tr, e.isRegistryWrite = false) ∨
    (∃ w1 w2 w3 w4,
      ¬ ((cfg.db_insert && cfg.db_update) = true) ∧
      check_create_file cfg.overwrite env.fs (make_paths cfg.source cfg.target).tar_path
        = .ok w1 ∧
      check_create_file cfg.overwrite env.fs (make_paths cfg.source cfg.target).zip_path
        = .ok w2 ∧
      check_create_file cfg.overwrite env.fs (make_paths cfg.source cfg.target).summary_path
        = .ok w3 ∧
      check_create_file cfg.overwrite env.fs (make_paths cfg.source cfg.target).log_path
        = .ok w4 ∧
      main cfg env =
        withTrace
          (Event.guardCheck (make_paths cfg.source cfg.target).tar_path :: w1 ++
           Event.guardCheck (make_paths cfg.source cfg.target).zip_path :: w2 ++
           Event.guardCheck (make_paths cfg.source cfg.target).summary_path :: w3 ++
           Event.guardCheck (make_paths cfg.source cfg.target).log_path :: w4)
          (run_lookup cfg env (make_paths cfg.source cfg.target))) := by
  simp only [main]
  split
  · exact Or.inl ⟨_, _, rfl, by simp⟩
  next hA =>
  split
  · exact Or.inl ⟨_, _, rfl, by simp⟩
  split
  · exact Or.inl ⟨_, _, rfl, by simp⟩
  split
  · exact Or.inl ⟨_, _, rfl, by simp⟩
  split
  · refine Or.inl ⟨_, _, rfl, ?_⟩
    intro e he
    rw [List.mem_singleton] at he
    subst he
    rfl
  next w1 heq1 =>
    split
    · refine Or.inl ⟨_, _, rfl, ?_⟩
      intro e he
      simp only [withTrace_trace, List.mem_append, List.mem_cons, List.mem_singleton,
        List.not_mem_nil, or_false] at he
      rcases he with (rfl | he) | rfl
      · rfl
      · exact check_ok_no_reg heq1 e he
      · rfl
    next w2 heq2 =>
      split
      · refine Or.inl ⟨_, _, rfl, ?_⟩
        intro e he
        simp only [withTrace_trace, List.mem_append, List.mem_cons, List.mem_singleton,
          List.not_mem_nil, or_false] at he
        rcases he with (rfl | he) | ((rfl | he) | rfl)
        · rfl
        · exact check_ok_no_reg heq1 e he
        · rfl
        · exact check_ok_no_reg heq2 e he
        · rfl
      next w3 heq3 =>
        split
        · refine Or.inl ⟨_, _, rfl, ?_⟩
          intro e he
          simp only [withTrace_trace, List.mem_append, List.mem_cons, List.mem_singleton,
            List.not_mem_nil, or_false] at he
          rcases he with (rfl | he) | ((rfl | he) | ((rfl | he) | rfl))
          · rfl
          · exact check_ok_no_reg heq1 e he
          · rfl
          · exact check_ok_no_reg heq2 e he
          · rfl
          · exact check_ok_no_reg heq3 e he
          · rfl
        next w4 heq4 =>
          refine Or.inr ⟨w1, w2, w3, w4, hA, heq1, heq2, heq3, heq4, ?_⟩
          simp [withTrace_withTrace, List.append_assoc]

/-- A run that did not terminate with an error passed the four
intermediate-path guard checks and continued into the lookup. -/
theorem main_ok_elim (cfg : Config) (env : Env)
    (h : (main cfg env).result = .ok ()) :
    ∃ w1 w2 w3 w4,
      ¬ ((cfg.db_insert && cfg.db_update) = true) ∧
      main cfg env =
        withTrace
          (Event.guardCheck (make_paths cfg.source cfg.target).tar_path :: w1 ++
           Event.guardCheck (make_paths cfg.source cfg.target).zip_path :: w2 ++
           Event.guardCheck (make_paths cfg.source cfg.target).summary_path :: w3 ++
           Event.guardCheck (make_paths cfg.source cfg.target).log_path :: w4)
          (run_lookup cfg env (make_paths cfg.source cfg.target)) := by
  rcases main_cases cfg env with ⟨f, tr, he, _⟩ | ⟨w1, w2, w3, w4, hA, _, _, _, _, he⟩
  · rw [he] at h
    simp at h
  · exact ⟨w1, w2, w3, w4, hA, he⟩

theorem mp_zip_ne_tar (s t : String) : (make_paths s t).zip_path ≠ (make_paths s t).tar_path := by
  simp only [make_paths]
  exact append_ne_of_suffix_ne _ (by decide)

theorem mp_sum_ne_tar (s t : String) :
    (make_paths s t).summary_path ≠ (make_paths s t).tar_path := by
  simp only [make_paths]
  exact append_ne_of_suffix_ne _ (by decide)

theorem mp_sum_ne_zip (s t : String) :
    (make_paths s t).summary_path ≠ (make_paths s t).zip_path := by
  simp only [make_paths]
  exact append_ne_of_suffix_ne _ (by decide)

theorem mp_log_ne_tar (s t : String) : (make_paths s t).log_path ≠ (make_paths s t).tar_path := by
  simp only [make_paths]
  exact append_ne_of_suffix_ne _ (by decide)

theorem mp_log_ne_zip (s t : String) : (make_paths s t).log_path ≠ (make_paths s t).zip_path := by
  simp only [make_paths]
  exact append_ne_of_suffix_ne _ (by decide)

theorem mp_log_ne_sum (s t : String) :
    (make_paths s t).log_path ≠ (make_paths s t).summary_path := by
  simp only [make_paths]
  exact append_ne_of_suffix_ne _ (by decide)

/-- The full shape of the trace of a successful run: the four guard checks,
the lookup, pack-hash-compress-hash, the advisories and optional directory
creation, the guard check of the final archive path, the summary, log and
bundle writes, the removal of the four intermediates, the bundle hash, and
the optional registry operation — in exactly this order. -/
theorem main_ok_trace (cfg : Config) (env : Env)
    (h : (main cfg env).result = .ok ()) :
    ∃ (w1 w2 w3 w4 mid w7 dbE : List Event),
      (main cfg env).trace =
        Event.guardCheck (make_paths cfg.source cfg.target).tar_path :: w1 ++
        Event.guardCheck (make_paths cfg.source cfg.target).zip_path :: w2 ++
        Event.guardCheck (make_paths cfg.source cfg.target).summary_path :: w3 ++
        Event.guardCheck (make_paths cfg.source cfg.target).log_path :: w4 ++
        Event.lookupStudy env.summary.info.study_uid ::
        Event.writeTarFile (make_paths cfg.source cfg.target).tar_path
          (pack_tar (make_paths cfg.source cfg.target).arg_source env.listing) ::
        Event.hashFile (make_paths cfg.source cfg.target).tar_path ::
        Event.writeFile (make_paths cfg.source cfg.target).zip_path ::
        Event.hashFile (make_paths cfg.source cfg.target).zip_path ::
        (mid ++
          Event.guardCheck
            (resolve_archive_path cfg.target (make_paths cfg.source cfg.target).base_name
              cfg.year env.summary.info.scan_date) ::
          (w7 ++
            Event.writeFile (make_paths cfg.source cfg.target).summary_path ::
            Event.writeFile (make_paths cfg.source cfg.target).log_path ::
            Event.writeTarFile
              (resolve_archive_path cfg.target (make_paths cfg.source cfg.target).base_name
                cfg.year env.summary.info.scan_date)
              (seal_entries (make_paths cfg.source cfg.target).zip_path
                (make_paths cfg.source cfg.target).summary_path
                (make_paths cfg.source cfg.target).log_path) ::
            Event.removeFile (make_paths cfg.source cfg.target).tar_path ::
            Event.removeFile (make_paths cfg.source cfg.target).zip_path ::
            Event.removeFile (make_paths cfg.source cfg.target).summary_path ::
            Event.removeFile (make_paths cfg.source cfg.target).log_path ::
            Event.hashFile
              (resolve_archive_path cfg.target (make_paths cfg.source cfg.target).base_name
                cfg.year env.summary.info.scan_date) ::
            dbE)) ∧
      (cfg.db_insert = true → dbE = [Event.insertOp env.summary.info.study_uid]) ∧
      (cfg.db_update = true → ∃ i, dbE = [Event.updateOp i env.summary.info.study_uid]) ∧
      (cfg.db_insert = false → cfg.db_update = false → dbE = []) := by
  obtain ⟨w1, w2, w3, w4, hA, hmain⟩ := main_ok_elim cfg env h
  have hlk : (run_lookup cfg env (make_paths cfg.source cfg.target)).result = .ok () := by
    rw [hmain] at h
    simpa using h
  have heqlk := run_lookup_ok cfg env (make_paths cfg.source cfg.target) hlk
  rw [heqlk] at hlk hmain
  simp only [withTrace_result] at hlk
  rw [run_pack_eq] at hlk hmain
  simp only [withTrace_result, withTrace_withTrace] at hlk hmain
  obtain ⟨mid5, hnm⟩ := run_naming_eq cfg env
    (get_archive_with_study_uid (if cfg.profile.isSome then some env.registry else none)
      env.summary.info.study_uid)
    (make_paths cfg.source cfg.target)
    ((make_paths cfg.source cfg.target).zip_path ::
      (make_paths cfg.source cfg.target).tar_path :: env.fs)
  rw [hnm] at hlk hmain
  simp only [withTrace_result, withTrace_withTrace] at hlk hmain
  obtain ⟨yd, fs3, hydShape, hfs3Shape, hyd⟩ := run_year_dir_ok cfg env _ _ _ hlk
  rw [hyd] at hlk hmain
  simp only [withTrace_result, withTrace_withTrace] at hlk hmain
  obtain ⟨w7, hck7, hag⟩ := run_archive_guard_ok cfg env _ _ _ _ hlk
  rw [hag] at hlk hmain
  simp only [withTrace_result, withTrace_withTrace] at hlk hmain
  rw [run_seal_eq] at hlk hmain
  simp only [withTrace_result, withTrace_withTrace] at hlk hmain
  rw [guard_archive_path_resolve] at hmain
  have htar3 : (make_paths cfg.source cfg.target).tar_path ∈ fs3 := by
    rcases hfs3Shape with rfl | ⟨dd, rfl⟩ <;> simp
  have hzip3 : (make_paths cfg.source cfg.target).zip_path ∈ fs3 := by
    rcases hfs3Shape with rfl | ⟨dd, rfl⟩ <;> simp
  rw [finish_run_eq cfg env _ _ _ _
      (by simp [htar3]) (by simp [hzip3]) (mp_zip_ne_tar _ _)
      (by simp) (mp_sum_ne_tar _ _) (mp_sum_ne_zip _ _)
      (by simp) (mp_log_ne_tar _ _) (mp_log_ne_zip _ _) (mp_log_ne_sum _ _)] at hmain
  refine ⟨w1, w2, w3, w4, mid5 ++ yd, w7,
    (if cfg.db_insert then [Event.insertOp env.summary.info.study_uid] else []) ++
      (if cfg.db_update then
        [Event.updateOp (dbar_id (get_archive_with_study_uid
          (if cfg.profile.isSome then some env.registry else none)
          env.summary.info.study_uid)) env.summary.info.study_uid]
       else []), ?_, ?_, ?_, ?_⟩
  · rw [hmain]
    simp [withTrace, dicom_log_make, List.append_assoc]
  · intro hI
    have hU : cfg.db_update = false := by
      cases hu : cfg.db_update
      · rfl
      · exact absurd (by simp [hI, hu]) hA
    simp [hI, hU]
  · intro hU
    have hI : cfg.db_insert = false := by
      cases hi : cfg.db_insert
      · rfl
      · exact absurd (by simp [hi, hU]) hA
    simp [hI, hU]
  · intro hI hU
    simp [hI, hU]

/- ## Frame lemmas: without a requested registry operation the registry is
untouched and no insert or update event occurs -/

theorem all_no_reg_of_mem {l : List Event} (h : ∀ e ∈ l, e.isRegistryWrite = false) :
    (l.all fun e => !e.isRegistryWrite) = true := by
  simp only [List.all_eq_true]
  intro e he
  simp [h e he]

theorem no_reg_of_all {l : List Event} (h : (l.all fun e => !e.isRegistryWrite) = true) :
    ∀ e ∈ l, e.isRegistryWrite = false := by
  simp only [List.all_eq_true] at h
  intro e he
  simpa using h e he

theorem finish_run_frame (cfg : Config) (env : Env) (dbar : Option (Nat × String))
    (log : DicomLog) (fs : List String) (p : Paths)
    (hI : cfg.db_insert = false) (hU : cfg.db_update = false) :
    (finish_run cfg env dbar log fs p).registry = env.registry ∧
    ((finish_run cfg env dbar log fs p).trace.all (fun e => !e.isRegistryWrite)) = true := by
  have hevs : ∀ e ∈ (cleanup fs [p.tar_path, p.zip_path, p.summary_path, p.log_path]).1,
      e.isRegistryWrite = false := by
    intro e he
    obtain ⟨q, rfl⟩ := cleanup_events_shape _ _ e he
    rfl
  rcases hcl : cleanup fs [p.tar_path, p.zip_path, p.summary_path, p.log_path]
    with ⟨evs, fs1, orf⟩
  rw [hcl] at hevs
  cases orf with
  | some f =>
    constructor
    · simp [finish_run, hcl]
    · apply all_no_reg_of_mem
      intro e he
      simp only [finish_run, hcl] at he
      exact hevs e he
  | none =>
    constructor
    · simp [finish_run, hcl, hI, hU]
    · apply all_no_reg_of_mem
      intro e he
      simp only [finish_run, hcl, hI, hU, Bool.false_eq_true, if_false,
        List.append_nil, List.mem_append, List.mem_singleton] at he
      rcases he with he | rfl
      · exact hevs e he
      · rfl

theorem run_seal_frame (cfg : Config) (env : Env) (dbar : Option (Nat × String))
    (p : Paths) (fs : List String) (ap : String)
    (hI : cfg.db_insert = false) (hU : cfg.db_update = false) :
    (run_seal cfg env dbar p fs ap).registry = env.registry ∧
    ((run_seal cfg env dbar p fs ap).trace.all (fun e => !e.isRegistryWrite)) = true := by
  obtain ⟨h1, h2⟩ := finish_run_frame cfg env dbar
    (dicom_log_make p.arg_source ap (env.hash p.tar_path) (env.hash p.zip_path))
    (ap :: p.log_path :: p.summary_path :: fs) p hI hU
  rw [run_seal_eq]
  refine ⟨by simpa using h1, ?_⟩
  apply all_no_reg_of_mem
  intro e he
  simp only [withTrace_trace, List.mem_append, List.mem_cons, List.not_mem_nil, or_false] at he
  rcases he with (rfl | rfl | rfl) | he
  · rfl
  · rfl
  · rfl
  · exact no_reg_of_all h2 e he

theorem run_archive_guard_frame (cfg : Config) (env : Env) (dbar : Option (Nat × String))
    (p : Paths) (fs : List String) (dp : String)
    (hI : cfg.db_insert = false) (hU : cfg.db_update = false) :
    (run_archive_guard cfg env dbar p fs dp).registry = env.registry ∧
    ((run_archive_guard cfg env dbar p fs dp).trace.all (fun e => !e.isRegistryWrite)) = true := by
  rw [run_archive_guard]
  cases hck : check_create_file cfg.overwrite fs
      (guard_archive_path dp p.base_name env.summary.info.scan_date) with
  | error f => exact ⟨rfl, by simp [Event.isRegistryWrite]⟩
  | ok w =>
    obtain ⟨h1, h2⟩ := run_seal_frame cfg env dbar p fs
      (guard_archive_path dp p.base_name env.summary.info.scan_date) hI hU
    refine ⟨by simpa using h1, ?_⟩
    apply all_no_reg_of_mem
    intro e he
    simp only [withTrace_trace, List.mem_append, List.mem_cons] at he
    rcases he with (rfl | he) | he
    · rfl
    · rcases check_ok_shape hck with rfl | ⟨m, rfl⟩
      · simp at he
      · rw [List.mem_singleton] at he
        subst he
        rfl
    · exact no_reg_of_all h2 e he

theorem run_year_dir_frame (cfg : Config) (env : Env) (dbar : Option (Nat × String))
    (p : Paths) (fs : List String)
    (hI : cfg.db_insert = false) (hU : cfg.db_update = false) :
    (run_year_dir cfg env dbar p fs).registry = env.registry ∧
    ((run_year_dir cfg env dbar p fs).trace.all (fun e => !e.isRegistryWrite)) = true := by
  cases hy : cfg.year with
  | false =>
    cases hsd : env.summary.info.scan_date with
    | none =>
      simpa [run_year_dir, hy, hsd] using
        run_archive_guard_frame cfg env dbar p fs cfg.target hI hU
    | some d =>
      simpa [run_year_dir, hy, hsd] using
        run_archive_guard_frame cfg env dbar p fs cfg.target hI hU
  | true =>
    cases hsd : env.summary.info.scan_date with
    | none =>
      simpa [run_year_dir, hy, hsd] using
        run_archive_guard_frame cfg env dbar p fs cfg.target hI hU
    | some d =>
      by_cases hmem : cfg.target ++ "/" ++ Nat.repr d.year ∈ fs
      · by_cases hbad : (!env.isdir (cfg.target ++ "/" ++ Nat.repr d.year)
            || !env.writable (cfg.target ++ "/" ++ Nat.repr d.year)) = true
        · simp [run_year_dir, hy, hsd, hmem, hbad]
        · simpa [run_year_dir, hy, hsd, hmem, hbad] using
            run_archive_guard_frame cfg env dbar p fs
              (cfg.target ++ "/" ++ Nat.repr d.year) hI hU
      · obtain ⟨h1, h2⟩ := run_archive_guard_frame cfg env dbar p
          ((cfg.target ++ "/" ++ Nat.repr d.year) :: fs)
          (cfg.target ++ "/" ++ Nat.repr d.year) hI hU
        constructor
        · simpa [run_year_dir, hy, hsd, hmem] using h1
        · apply all_no_reg_of_mem
          intro e he
          simp only [run_year_dir, hy, hsd, hmem, if_false, withTrace_trace,
            List.mem_append, List.mem_singleton] at he
          rcases he with rfl | he
          · rfl
          · exact no_reg_of_all h2 e he

theorem run_naming_frame (cfg : Config) (env : Env) (dbar : Option (Nat × String))
    (p : Paths) (fs : List String)
    (hI : cfg.db_insert = false) (hU : cfg.db_update = false) :
    (run_naming cfg env dbar p fs).registry = env.registry ∧
    ((run_naming cfg env dbar p fs).trace.all (fun e => !e.isRegistryWrite)) = true := by
  obtain ⟨h1, h2⟩ := run_year_dir_frame cfg env dbar p fs hI hU
  rw [run_naming]
  refine ⟨by simpa using h1, ?_⟩
  apply all_no_reg_of_mem
  intro e he
  simp only [withTrace_trace, List.mem_append] at he
  rcases he with (he | he) | he
  · split at he
    · rw [List.mem_singleton] at he
      subst he
      rfl
    · simp at he
  · split at he
    · rw [List.mem_singleton] at he
      subst he
      rfl
    · simp at he
  · exact no_reg_of_all h2 e he

theorem run_pack_frame (cfg : Config) (env : Env) (dbar : Option (Nat × String)) (p : Paths)
    (hI : cfg.db_insert = false) (hU : cfg.db_update = false) :
    (run_pack cfg env dbar p).registry = env.registry ∧
    ((run_pack cfg env dbar p).trace.all (fun e => !e.isRegistryWrite)) = true := by
  obtain ⟨h1, h2⟩ := run_naming_frame cfg env dbar p
    (p.zip_path :: p.tar_path :: env.fs) hI hU
  rw [run_pack_eq]
  refine ⟨by simpa using h1, ?_⟩
  apply all_no_reg_of_mem
  intro e he
  simp only [withTrace_trace, List.mem_append, List.mem_cons, List.not_mem_nil, or_false] at he
  rcases he with (rfl | rfl | rfl | rfl) | he
  · rfl
  · rfl
  · rfl
  · rfl
  · exact no_reg_of_all h2 e he

theorem run_lookup_frame (cfg : Config) (env : Env) (p : Paths)
    (hI : cfg.db_insert = false) (hU : cfg.db_update = false) :
    (run_lookup cfg env p).registry = env.registry ∧
    ((run_lookup cfg env p).trace.all (fun e => !e.isRegistryWrite)) = true := by
  obtain ⟨h1, h2⟩ := run_pack_frame cfg env
    (get_archive_with_study_uid (if cfg.profile.isSome then some env.registry else none)
      env.summary.info.study_uid) p hI hU
  rw [run_lookup]
  simp only [hI, hU, Bool.false_and, Bool.false_eq_true, if_false, withTrace_registry,
    withTrace_trace]
  refine ⟨h1, ?_⟩
  apply all_no_reg_of_mem
  intro e he
  simp only [List.mem_cons, List.not_mem_nil, or_false, List.mem_append,
    List.mem_singleton] at he
  rcases he with rfl | he
  · rfl
  · exact no_reg_of_all h2 e he

/-- With no `--db-*` flag requested, a run leaves the registry untouched and
performs no insert or update, whatever else happens. -/
theorem main_frame_no_flags (cfg : Config) (env : Env)
    (hI : cfg.db_insert = false) (hU : cfg.db_update = false) :
    (main cfg env).registry = env.registry ∧
    ((main cfg env).trace.all fun e => !e.isRegistryWrite) = true := by
  rcases main_cases cfg env with ⟨f, tr, he, htr⟩ |
    ⟨w1, w2, w3, w4, hA, hk1, hk2, hk3, hk4, he⟩
  · rw [he]
    exact ⟨rfl, all_no_reg_of_mem htr⟩
  · obtain ⟨hr, ht⟩ := run_lookup_frame cfg env (make_paths cfg.source cfg.target) hI hU
    rw [he]
    refine ⟨by simpa using hr, ?_⟩
    simp only [withTrace_trace]
    apply all_no_reg_of_mem
    intro e hmem
    rcases List.mem_append.1 hmem with hpre | hsub
    · simp only [List.mem_cons, List.mem_append] at hpre
      rcases hpre with (((rfl | hw) | (rfl | hw)) | (rfl | hw)) | (rfl | hw)
      · rfl
      · exact check_ok_no_reg hk1 e hw
      · rfl
      · exact check_ok_no_reg hk2 e hw
      · rfl
      · exact check_ok_no_reg hk3 e hw
      · rfl
      · exact check_ok_no_reg hk4 e hw
    · exact no_reg_of_all ht e hsub

/-- When the registry already holds the study and `--db-insert` was
requested, a run that passed the argument and guard checks stops right after
the lookup with `INSERT_FAILURE`, the message carrying the archiving log of
the prior record, the filesystem and registry untouched. -/
theorem main_insert_conflict (cfg : Config) (env : Env) (pr : Nat × String)
    (w1 w2 w3 w4 : List Event)
    (hI : cfg.db_insert = true) (hU : cfg.db_update = false)
    (hprof : cfg.profile.isSome = true)
    (hs1 : env.isdir cfg.source = true) (hs2 : env.readable cfg.source = true)
    (ht1 : env.isdir cfg.target = true) (ht2 : env.writable cfg.target = true)
    (hck1 : check_create_file cfg.overwrite env.fs (make_paths cfg.source cfg.target).tar_path
      = .ok w1)
    (hck2 : check_create_file cfg.overwrite env.fs (make_paths cfg.source cfg.target).zip_path
      = .ok w2)
    (hck3 : check_create_file cfg.overwrite env.fs (make_paths cfg.source cfg.target).summary_path
      = .ok w3)
    (hck4 : check_create_file cfg.overwrite env.fs (make_paths cfg.source cfg.target).log_path
      = .ok w4)
    (hfind : get_archive_with_study_uid (some env.registry) env.summary.info.study_uid
      = some pr) :
    main cfg env =
      ⟨.error ⟨ExitCode.INSERT_FAILURE,
          insert_conflict_message env.summary.info.study_uid pr.2⟩,
        Event.guardCheck (make_paths cfg.source cfg.target).tar_path :: w1 ++
        Event.guardCheck (make_paths cfg.source cfg.target).zip_path :: w2 ++
        Event.guardCheck (make_paths cfg.source cfg.target).summary_path :: w3 ++
        Event.guardCheck (make_paths cfg.source cfg.target).log_path :: w4 ++
        [Event.lookupStudy env.summary.info.study_uid],
        env.fs, env.registry⟩ := by
  simp [main, run_lookup, hI, hU, hprof, hs1, hs2, ht1, ht2, hck1, hck2, hck3, hck4, hfind,
    dbar_log, withTrace, List.append_assoc]

/-- When the registry does not hold the study and `--db-update` was
requested, a run that passed the argument and guard checks stops right after
the lookup with `UPDATE_FAILURE`, the filesystem and registry untouched. -/
theorem main_update_conflict (cfg : Config) (env : Env)
    (w1 w2 w3 w4 : List Event)
    (hI : cfg.db_insert = false) (hU : cfg.db_update = true)
    (hprof : cfg.profile.isSome = true)
    (hs1 : env.isdir cfg.source = true) (hs2 : env.readable cfg.source = true)
    (ht1 : env.isdir cfg.target = true) (ht2 : env.writable cfg.target = true)
    (hck1 : check_create_file cfg.overwrite env.fs (make_paths cfg.source cfg.target).tar_path
      = .ok w1)
    (hck2 : check_create_file cfg.overwrite env.fs (make_paths cfg.source cfg.target).zip_path
      = .ok w2)
    (hck3 : check_create_file cfg.overwrite env.fs (make_paths cfg.source cfg.target).summary_path
      = .ok w3)
    (hck4 : check_create_file cfg.overwrite env.fs (make_paths cfg.source cfg.target).log_path
      = .ok w4)
    (hfind : get_archive_with_study_uid (some env.registry) env.summary.info.study_uid
      = none) :
    main cfg env =
      ⟨.error ⟨ExitCode.UPDATE_FAILURE,
          "No study \x27" ++ env.summary.info.study_uid ++ "\x27 found in the database"⟩,
        Event.guardCheck (make_paths cfg.source cfg.target).tar_path :: w1 ++
        Event.guardCheck (make_paths cfg.source cfg.target).zip_path :: w2 ++
        Event.guardCheck (make_paths cfg.source cfg.target).summary_path :: w3 ++
        Event.guardCheck (make_paths cfg.source cfg.target).log_path :: w4 ++
        [Event.lookupStudy env.summary.info.study_uid],
        env.fs, env.registry⟩ := by
  simp [main, run_lookup, hI, hU, hprof, hs1, hs2, ht1, ht2, hck1, hck2, hck3, hck4, hfind,
    withTrace, List.append_assoc]

/- ## Claims -/

/-- C4: for every artifact path and overwrite flag: if the path exists and
overwrite is false, the guard fails with `TARGET_EXISTS_NO_CLOBBER` (the
`TargetExists` of the spec); if the path exists and overwrite is true, the guard
succeeds and emits exactly one warning; if the path does not exist, the
guard succeeds and emits no warning. -/
theorem claim_C4_guard_cases (fs : List String) (path : String) :
    (path ∈ fs → ∃ m, check_create_file false fs path
        = .error ⟨ExitCode.TARGET_EXISTS_NO_CLOBBER, m⟩) ∧
    (path ∈ fs → ∃ m, check_create_file true fs path = .ok [Event.warn m]) ∧
    (path ∉ fs →
      check_create_file false fs path = .ok [] ∧ check_create_file true fs path = .ok []) := by
  refine ⟨fun h => ⟨"File or directory \x27" ++ path ++
      "\x27 already exists. Use option \x27--overwrite\x27 to overwrite it.", ?_⟩,
    fun h => ⟨"Overwriting \x27" ++ path ++ "\x27", ?_⟩, fun h => ⟨?_, ?_⟩⟩ <;>
    simp [check_create_file, h]

/-- Witness for C4 at concrete inputs. -/
theorem claim_C4_guard_cases_witness :
    (∃ m, check_create_file false ["t/a.tar"] "t/a.tar"
      = .error ⟨ExitCode.TARGET_EXISTS_NO_CLOBBER, m⟩) ∧
    (∃ m, check_create_file true ["t/a.tar"] "t/a.tar" = .ok [Event.warn m]) ∧
    (check_create_file false ["t/a.tar"] "t/b.tar" = .ok []
      ∧ check_create_file true ["t/a.tar"] "t/b.tar" = .ok []) :=
  ⟨(claim_C4_guard_cases ["t/a.tar"] "t/a.tar").1 (by decide),
   (claim_C4_guard_cases ["t/a.tar"] "t/a.tar").2.1 (by decide),
   (claim_C4_guard_cases ["t/a.tar"] "t/b.tar").2.2 (by decide)⟩

/-- C5: archive naming is a deterministic function of
`(base_name, scan_date, use_today, year_bucket)` (and the target directory):
the resolver of the code agrees with the formula of the spec for every input, the
destination directory is `{target}/{scan_date.year}` exactly when
`year_bucket` is set and `scan_date` is present (otherwise the bare target),
and the filename is `DCM_{date}_{base}.tar` resp. `DCM_{base}.tar`. -/
theorem claim_C5_naming (target base_name : String) (scan_date : Option Date)
    (use_today year_bucket : Bool) :
    resolve_archive_path target base_name year_bucket scan_date
      = resolve_archive_path_spec target base_name scan_date use_today year_bucket ∧
    (∀ d, scan_date = some d → year_bucket = true →
      resolve_dir target year_bucket scan_date = target ++ "/" ++ Nat.repr d.year) ∧
    (year_bucket = false ∨ scan_date = none →
      resolve_dir target year_bucket scan_date = target) ∧
    (∀ d, scan_date = some d →
      resolve_archive_path target base_name year_bucket scan_date
        = resolve_dir target year_bucket scan_date ++ "/DCM_" ++ write_date d ++ "_"
          ++ base_name ++ ".tar") ∧
    (scan_date = none →
      resolve_archive_path target base_name year_bucket scan_date
        = resolve_dir target year_bucket scan_date ++ "/DCM_" ++ base_name ++ ".tar") := by
  refine ⟨?_, ?_, ?_, ?_, ?_⟩
  · cases scan_date <;> cases year_bucket <;> rfl
  · rintro d rfl rfl
    rfl
  · rintro (rfl | rfl)
    · cases scan_date <;> rfl
    · cases year_bucket <;> rfl
  · rintro d rfl
    rfl
  · rintro rfl
    cases year_bucket <;> rfl

/-- Witness for C5 at concrete inputs. -/
theorem claim_C5_naming_witness :
    resolve_archive_path "t" "B" true (some ⟨2024, 8, 27⟩)
      = resolve_archive_path_spec "t" "B" (some ⟨2024, 8, 27⟩) false true ∧
    resolve_dir "t" true (some ⟨2024, 8, 27⟩) = "t" ++ "/" ++ Nat.repr 2024 ∧
    resolve_dir "t" false (some ⟨2024, 8, 27⟩) = "t" ∧
    resolve_archive_path "t" "B" true (some ⟨2024, 8, 27⟩)
      = resolve_dir "t" true (some ⟨2024, 8, 27⟩) ++ "/DCM_" ++ write_date ⟨2024, 8, 27⟩ ++ "_"
        ++ "B" ++ ".tar" ∧
    resolve_archive_path "t" "B" false none
      = resolve_dir "t" false none ++ "/DCM_" ++ "B" ++ ".tar" :=
  ⟨(claim_C5_naming "t" "B" (some ⟨2024, 8, 27⟩) false true).1,
   (claim_C5_naming "t" "B" (some ⟨2024, 8, 27⟩) false true).2.1 ⟨2024, 8, 27⟩ rfl rfl,
   (claim_C5_naming "t" "B" (some ⟨2024, 8, 27⟩) false false).2.2.1 (Or.inl rfl),
   (claim_C5_naming "t" "B" (some ⟨2024, 8, 27⟩) false true).2.2.2.1 ⟨2024, 8, 27⟩ rfl,
   (claim_C5_naming "t" "B" none false false).2.2.2.2 rfl⟩

/-- C10: trailing `/` characters on the source path are stripped before the
base name is derived: appending any number of trailing slashes to the source
leaves the base name and the five derived artifact paths unchanged. -/
theorem claim_C10_trailing_slashes (source target : String) (n : Nat) :
    make_paths (source ++ String.mk (List.replicate n '/')) target
      = make_paths source target ∧
    (make_paths (source ++ String.mk (List.replicate n '/')) target).base_name
      = (make_paths source target).base_name ∧
    ∀ (y : Bool) (sd : Option Date),
      resolve_archive_path target
          (make_paths (source ++ String.mk (List.replicate n '/')) target).base_name y sd
        = resolve_archive_path target (make_paths source target).base_name y sd := by
  have h := strip_trailing_slashes_append source n
  refine ⟨?_, ?_, ?_⟩ <;> simp [make_paths, h]

/-- A successful guard check emits no file write. -/
theorem check_ok_no_write {ow : Bool} {fs : List String} {q : String} {w : List Event}
    (h : check_create_file ow fs q = .ok w) :
    ∀ e ∈ w, e.isFileWrite = false := by
  intro e he
  rcases check_ok_shape h with rfl | ⟨m, rfl⟩
  · simp at he
  · rw [List.mem_singleton] at he
    subst he
    rfl

/-- C1: with `--db-insert` requested and the study already present in the
registry, a run that passed the argument and guard checks aborts with
`INSERT_FAILURE` (the `InsertConflict` of the spec), the error message
containing the archiving log of the prior record, before any archive file — tar, zip,
summary, log or final bundle — is written; likewise with `--db-update`
requested and the study absent, it aborts with `UPDATE_FAILURE` (the `UpdateConflict` of the
spec) before any file is written. -/
theorem claim_C1_conflicts (cfg : Config) (env : Env) (pr : Nat × String)
    (w1 w2 w3 w4 : List Event)
    (hprof : cfg.profile.isSome = true)
    (hs1 : env.isdir cfg.source = true) (hs2 : env.readable cfg.source = true)
    (ht1 : env.isdir cfg.target = true) (ht2 : env.writable cfg.target = true)
    (hck1 : check_create_file cfg.overwrite env.fs (make_paths cfg.source cfg.target).tar_path
      = .ok w1)
    (hck2 : check_create_file cfg.overwrite env.fs (make_paths cfg.source cfg.target).zip_path
      = .ok w2)
    (hck3 : check_create_file cfg.overwrite env.fs (make_paths cfg.source cfg.target).summary_path
      = .ok w3)
    (hck4 : check_create_file cfg.overwrite env.fs (make_paths cfg.source cfg.target).log_path
      = .ok w4) :
    (cfg.db_insert = true → cfg.db_update = false →
      get_archive_with_study_uid (some env.registry) env.summary.info.study_uid = some pr →
      (main cfg env).result
        = .error ⟨ExitCode.INSERT_FAILURE,
            insert_conflict_message env.summary.info.study_uid pr.2⟩ ∧
      (∃ a, insert_conflict_message env.summary.info.study_uid pr.2 = a ++ pr.2) ∧
      ((main cfg env).trace.all fun e => !e.isFileWrite) = true ∧
      (main cfg env).fs = env.fs ∧ (main cfg env).registry = env.registry) ∧
    (cfg.db_insert = false → cfg.db_update = true →
      get_archive_with_study_uid (some env.registry) env.summary.info.study_uid = none →
      (main cfg env).result
        = .error ⟨ExitCode.UPDATE_FAILURE,
            "No study \x27" ++ env.summary.info.study_uid ++ "\x27 found in the database"⟩ ∧
      ((main cfg env).trace.all fun e => !e.isFileWrite) = true ∧
      (main cfg env).fs = env.fs ∧ (main cfg env).registry = env.registry) := by
  have htr : ∀ (o : RunOutcome),
      o.trace =
        Event.guardCheck (make_paths cfg.source cfg.target).tar_path :: w1 ++
        Event.guardCheck (make_paths cfg.source cfg.target).zip_path :: w2 ++
        Event.guardCheck (make_paths cfg.source cfg.target).summary_path :: w3 ++
        Event.guardCheck (make_paths cfg.source cfg.target).log_path :: w4 ++
        [Event.lookupStudy env.summary.info.study_uid] →
      (o.trace.all fun e => !e.isFileWrite) = true := by
    intro o ho
    rw [ho]
    simp only [List.all_eq_true]
    intro e he
    simp only [List.mem_append, List.mem_cons, List.mem_singleton, List.not_mem_nil,
      or_false] at he
    rcases he with ((((rfl | hw) | (rfl | hw)) | (rfl | hw)) | (rfl | hw)) | rfl
    · rfl
    · simp [check_ok_no_write hck1 e hw]
    · rfl
    · simp [check_ok_no_write hck2 e hw]
    · rfl
    · simp [check_ok_no_write hck3 e hw]
    · rfl
    · simp [check_ok_no_write hck4 e hw]
    · rfl
  constructor
  · intro hI hU hfind
    have he := main_insert_conflict cfg env pr w1 w2 w3 w4 hI hU hprof hs1 hs2 ht1 ht2
      hck1 hck2 hck3 hck4 hfind
    rw [he]
    refine ⟨rfl, ⟨"Study \x27" ++ env.summary.info.study_uid ++
      "\x27 is already inserted in the database\n" ++ "Previous archiving log:\n", rfl⟩,
      ?_, rfl, rfl⟩
    exact htr _ rfl
  · intro hI hU hfind
    have he := main_update_conflict cfg env w1 w2 w3 w4 hI hU hprof hs1 hs2 ht1 ht2
      hck1 hck2 hck3 hck4 hfind
    rw [he]
    exact ⟨rfl, htr _ rfl, rfl, rfl⟩

/-- Witness for C1: a concrete insert conflict (registry already holding
study `1.2.3` with log `PRIORLOG`) and a concrete update conflict (empty
registry). -/
theorem claim_C1_conflicts_witness :
    ((main cfgIns envIns).result
        = .error ⟨ExitCode.INSERT_FAILURE, insert_conflict_message "1.2.3" "PRIORLOG"⟩ ∧
      (∃ a, insert_conflict_message "1.2.3" "PRIORLOG" = a ++ "PRIORLOG") ∧
      ((main cfgIns envIns).trace.all fun e => !e.isFileWrite) = true ∧
      (main cfgIns envIns).fs = envIns.fs ∧ (main cfgIns envIns).registry = envIns.registry) ∧
    ((main cfgUpd envW).result
        = .error ⟨ExitCode.UPDATE_FAILURE,
            "No study \x271.2.3\x27 found in the database"⟩ ∧
      ((main cfgUpd envW).trace.all fun e => !e.isFileWrite) = true ∧
      (main cfgUpd envW).fs = envW.fs ∧ (main cfgUpd envW).registry = envW.registry) := by
  constructor
  · have h := (claim_C1_conflicts cfgIns envIns (7, "PRIORLOG") [] [] [] []
      rfl rfl rfl rfl rfl rfl rfl rfl rfl).1 rfl rfl rfl
    exact h
  · have h := (claim_C1_conflicts cfgUpd envW (0, "") [] [] [] []
      rfl rfl rfl rfl rfl rfl rfl rfl rfl).2 rfl rfl rfl
    exact h

/-- C3 (amended): when no registry connection is configured (no profile),
the registry is unchanged by the run and no insert or update is attempted;
the lookup by study uid, however, is not guarded by the connection — it is
still performed whenever the run reaches the database-presence check. -/
theorem claim_C3_no_connection (cfg : Config) (env : Env) (hprof : cfg.profile = none) :
    (main cfg env).registry = env.registry ∧
    ((main cfg env).trace.all fun e => !e.isRegistryWrite) = true ∧
    (cfg.db_insert = false → cfg.db_update = false →
      ∀ w1 w2 w3 w4,
      env.isdir cfg.source = true → env.readable cfg.source = true →
      env.isdir cfg.target = true → env.writable cfg.target = true →
      check_create_file cfg.overwrite env.fs (make_paths cfg.source cfg.target).tar_path
        = .ok w1 →
      check_create_file cfg.overwrite env.fs (make_paths cfg.source cfg.target).zip_path
        = .ok w2 →
      check_create_file cfg.overwrite env.fs (make_paths cfg.source cfg.target).summary_path
        = .ok w3 →
      check_create_file cfg.overwrite env.fs (make_paths cfg.source cfg.target).log_path
        = .ok w4 →
      Event.lookupStudy env.summary.info.study_uid ∈ (main cfg env).trace) := by
  have hmain12 : (main cfg env).registry = env.registry ∧
      ((main cfg env).trace.all fun e => !e.isRegistryWrite) = true := by
    cases hI : cfg.db_insert with
    | true =>
      cases hU : cfg.db_update with
      | true => simp [main, hI, hU]
      | false => simp [main, hI, hU, hprof]
    | false =>
      cases hU : cfg.db_update with
      | true => simp [main, hI, hU, hprof]
      | false => exact main_frame_no_flags cfg env hI hU
  refine ⟨hmain12.1, hmain12.2, ?_⟩
  intro hI hU w1 w2 w3 w4 hs1 hs2 ht1 ht2 hck1 hck2 hck3 hck4
  simp [main, run_lookup, hI, hU, hs1, hs2, ht1, ht2, hck1, hck2, hck3, hck4]

/-- Counterexample for C3 as stated: with no profile (hence no registry
connection) the run still performs the `study_uid` lookup — the lookup event
occurs in the trace of a run with no connection configured. -/
theorem claim_C3_counterexample :
    cfgW.profile = none ∧ Event.lookupStudy "1.2.3" ∈ (main cfgW envW).trace := by
  constructor
  · rfl
  · decide

/-- Witness for the amended C3 at concrete inputs. -/
theorem claim_C3_no_connection_witness :
    (main cfgW envW).registry = envW.registry ∧
    ((main cfgW envW).trace.all fun e => !e.isRegistryWrite) = true ∧
    Event.lookupStudy "1.2.3" ∈ (main cfgW envW).trace := by
  have h := claim_C3_no_connection cfgW envW rfl
  exact ⟨h.1, h.2.1, h.2.2 rfl rfl [] [] [] [] rfl rfl rfl rfl rfl rfl rfl rfl⟩

theorem mp_basename_ext (B t ext : String) (hB : '/' ∉ B.data) (hext : '/' ∉ ext.data) :
    basename (t ++ "/" ++ B ++ ext) = B ++ ext := by
  rw [String.append_assoc (t ++ "/") B ext]
  apply basename_append
  rw [String.data_append]
  intro hm
  rcases List.mem_append.1 hm with h | h
  · exact hB h
  · exact hext h

theorem mp_base_no_slash (s t : String) : '/' ∉ ((make_paths s t).base_name).data := by
  simp only [make_paths]
  exact basename_no_slash _

theorem mp_basename_zip (s t : String) :
    basename (make_paths s t).zip_path = (make_paths s t).base_name ++ ".tar.gz" := by
  have h := mp_base_no_slash s t
  simp only [make_paths] at h ⊢
  exact mp_basename_ext _ _ _ h (by decide)

theorem mp_basename_meta (s t : String) :
    basename (make_paths s t).summary_path = (make_paths s t).base_name ++ ".meta" := by
  have h := mp_base_no_slash s t
  simp only [make_paths] at h ⊢
  exact mp_basename_ext _ _ _ h (by decide)

theorem mp_basename_log (s t : String) :
    basename (make_paths s t).log_path = (make_paths s t).base_name ++ ".log" := by
  have h := mp_base_no_slash s t
  simp only [make_paths] at h ⊢
  exact mp_basename_ext _ _ _ h (by decide)

/-- C6: every successful run seals at the final archive path a bundle with
exactly three entries — the compressed payload, the summary file and the log
file — each stored under its base name only, with no directory separator in
any stored name. -/
theorem claim_C6_bundle_entries (cfg : Config) (env : Env)
    (h : (main cfg env).result = .ok ()) :
    Event.writeTarFile
      (resolve_archive_path cfg.target (make_paths cfg.source cfg.target).base_name
        cfg.year env.summary.info.scan_date)
      (seal_entries (make_paths cfg.source cfg.target).zip_path
        (make_paths cfg.source cfg.target).summary_path
        (make_paths cfg.source cfg.target).log_path) ∈ (main cfg env).trace ∧
    (seal_entries (make_paths cfg.source cfg.target).zip_path
      (make_paths cfg.source cfg.target).summary_path
      (make_paths cfg.source cfg.target).log_path).length = 3 ∧
    (seal_entries (make_paths cfg.source cfg.target).zip_path
      (make_paths cfg.source cfg.target).summary_path
      (make_paths cfg.source cfg.target).log_path).map TarEntry.arcname
      = [(make_paths cfg.source cfg.target).base_name ++ ".tar.gz",
         (make_paths cfg.source cfg.target).base_name ++ ".meta",
         (make_paths cfg.source cfg.target).base_name ++ ".log"] ∧
    ∀ e ∈ seal_entries (make_paths cfg.source cfg.target).zip_path
        (make_paths cfg.source cfg.target).summary_path
        (make_paths cfg.source cfg.target).log_path,
      '/' ∉ e.arcname.data := by
  obtain ⟨w1, w2, w3, w4, mid, w7, dbE, htr, _, _, _⟩ := main_ok_trace cfg env h
  refine ⟨?_, rfl, ?_, ?_⟩
  · rw [htr]
    simp
  · simp [seal_entries, mp_basename_zip, mp_basename_meta, mp_basename_log]
  · intro e he
    simp only [seal_entries, List.mem_cons, List.not_mem_nil, or_false] at he
    rcases he with rfl | rfl | rfl <;> exact basename_no_slash _

/-- Witness for C6: the successful concrete run of `cfgW` on `envW`. -/
theorem claim_C6_bundle_entries_witness :
    Event.writeTarFile
      (resolve_archive_path "t" (make_paths "src/Sub" "t").base_name false none)
      (seal_entries (make_paths "src/Sub" "t").zip_path
        (make_paths "src/Sub" "t").summary_path
        (make_paths "src/Sub" "t").log_path) ∈ (main cfgW envW).trace ∧
    (seal_entries (make_paths "src/Sub" "t").zip_path
      (make_paths "src/Sub" "t").summary_path
      (make_paths "src/Sub" "t").log_path).map TarEntry.arcname
      = [(make_paths "src/Sub" "t").base_name ++ ".tar.gz",
         (make_paths "src/Sub" "t").base_name ++ ".meta",
         (make_paths "src/Sub" "t").base_name ++ ".log"] := by
  have h := claim_C6_bundle_entries cfgW envW rfl
  exact ⟨h.1, h.2.2.1⟩

/-- C8: every successful run packs exactly the entries directly under the
source directory (the `os.listdir` listing, non-recursive at that level)
into the uncompressed container at the tar path, one `add` per entry, each
referencing the entry by its name under the source path. -/
theorem claim_C8_pack_entries (cfg : Config) (env : Env)
    (h : (main cfg env).result = .ok ()) :
    Event.writeTarFile (make_paths cfg.source cfg.target).tar_path
      (pack_tar (make_paths cfg.source cfg.target).arg_source env.listing)
      ∈ (main cfg env).trace ∧
    (pack_tar (make_paths cfg.source cfg.target).arg_source env.listing).length
      = env.listing.length ∧
    (pack_tar (make_paths cfg.source cfg.target).arg_source env.listing).map TarEntry.name
      = env.listing.map
          (fun file => (make_paths cfg.source cfg.target).arg_source ++ "/" ++ file) ∧
    (pack_tar (make_paths cfg.source cfg.target).arg_source env.listing).map TarEntry.arcname
      = env.listing.map
          (fun file => (make_paths cfg.source cfg.target).arg_source ++ "/" ++ file) := by
  obtain ⟨w1, w2, w3, w4, mid, w7, dbE, htr, _, _, _⟩ := main_ok_trace cfg env h
  refine ⟨?_, ?_, ?_, ?_⟩
  · rw [htr]
    simp
  · simp [pack_tar]
  · simp [pack_tar]
  · simp [pack_tar]

/-- Witness for C8: the successful concrete run of `cfgW` on `envW`. -/
theorem claim_C8_pack_entries_witness :
    Event.writeTarFile (make_paths "src/Sub" "t").tar_path
      (pack_tar (make_paths "src/Sub" "t").arg_source ["a.dcm", "b.dcm"])
      ∈ (main cfgW envW).trace ∧
    (pack_tar (make_paths "src/Sub" "t").arg_source ["a.dcm", "b.dcm"]).map TarEntry.name
      = ["a.dcm", "b.dcm"].map
          (fun file => (make_paths "src/Sub" "t").arg_source ++ "/" ++ file) := by
  have h := claim_C8_pack_entries cfgW envW rfl
  exact ⟨h.1, h.2.2.1⟩

/-- C2 (amended): in every successful run the final bundle is written and
closed, then Cleanup removes the four intermediates, then the archive
checksum is computed over the sealed bundle (strictly after it is closed and
complete), and only then is the registry insert or update performed. -/
theorem claim_C2_commit_order (cfg : Config) (env : Env)
    (h : (main cfg env).result = .ok ()) :
    ∃ dbE : List Event,
      List.Sublist
        (Event.writeTarFile
          (resolve_archive_path cfg.target (make_paths cfg.source cfg.target).base_name
            cfg.year env.summary.info.scan_date)
          (seal_entries (make_paths cfg.source cfg.target).zip_path
            (make_paths cfg.source cfg.target).summary_path
            (make_paths cfg.source cfg.target).log_path) ::
         Event.removeFile (make_paths cfg.source cfg.target).tar_path ::
         Event.removeFile (make_paths cfg.source cfg.target).zip_path ::
         Event.removeFile (make_paths cfg.source cfg.target).summary_path ::
         Event.removeFile (make_paths cfg.source cfg.target).log_path ::
         Event.hashFile
          (resolve_archive_path cfg.target (make_paths cfg.source cfg.target).base_name
            cfg.year env.summary.info.scan_date) :: dbE)
        (main cfg env).trace ∧
      (cfg.db_insert = true → dbE = [Event.insertOp env.summary.info.study_uid]) ∧
      (cfg.db_update = true → ∃ i, dbE = [Event.updateOp i env.summary.info.study_uid]) ∧
      (cfg.db_insert = false → cfg.db_update = false → dbE = []) := by
  obtain ⟨w1, w2, w3, w4, mid, w7, dbE, htr, h1, h2, h3⟩ := main_ok_trace cfg env h
  refine ⟨dbE, ?_, h1, h2, h3⟩
  rw [htr]
  simp only [List.cons_append, List.append_assoc, List.nil_append]
  apply sublist_skip_cons
  apply sublist_skip_append
  apply sublist_skip_cons
  apply sublist_skip_append
  apply sublist_skip_cons
  apply sublist_skip_append
  apply sublist_skip_cons
  apply sublist_skip_append
  apply sublist_skip_cons
  apply sublist_skip_cons
  apply sublist_skip_cons
  apply sublist_skip_cons
  apply sublist_skip_cons
  apply sublist_skip_append
  apply sublist_skip_cons
  apply sublist_skip_append
  apply sublist_skip_cons
  apply sublist_skip_cons
  exact List.Sublist.refl _

/-- Counterexample for C2 as stated: in the successful concrete run of
`cfgW` on `envW`, the removal of the tar intermediate occurs strictly before
the archive checksum is computed (each event occurring exactly once), so the
checksum is not computed before Cleanup. -/
theorem claim_C2_counterexample :
    Event.removeFile "t/Sub.tar" ∈ (main cfgW envW).trace ∧
    Event.hashFile "t/DCM_Sub.tar" ∈ (main cfgW envW).trace ∧
    (main cfgW envW).trace.count (Event.removeFile "t/Sub.tar") = 1 ∧
    (main cfgW envW).trace.count (Event.hashFile "t/DCM_Sub.tar") = 1 ∧
    (main cfgW envW).trace.indexOf (Event.removeFile "t/Sub.tar")
      < (main cfgW envW).trace.indexOf (Event.hashFile "t/DCM_Sub.tar") := by
  refine ⟨?_, ?_, ?_, ?_, ?_⟩ <;> decide

/-- Witness for the amended C2: the successful concrete run of `cfgW` on
`envW`. -/
theorem claim_C2_commit_order_witness :
    (main cfgW envW).result = .ok () ∧
    ∃ dbE : List Event,
      List.Sublist
        (Event.writeTarFile
          (resolve_archive_path cfgW.target (make_paths cfgW.source cfgW.target).base_name
            cfgW.year envW.summary.info.scan_date)
          (seal_entries (make_paths cfgW.source cfgW.target).zip_path
            (make_paths cfgW.source cfgW.target).summary_path
            (make_paths cfgW.source cfgW.target).log_path) ::
         Event.removeFile (make_paths cfgW.source cfgW.target).tar_path ::
         Event.removeFile (make_paths cfgW.source cfgW.target).zip_path ::
         Event.removeFile (make_paths cfgW.source cfgW.target).summary_path ::
         Event.removeFile (make_paths cfgW.source cfgW.target).log_path ::
         Event.hashFile
          (resolve_archive_path cfgW.target (make_paths cfgW.source cfgW.target).base_name
            cfgW.year envW.summary.info.scan_date) :: dbE)
        (main cfgW envW).trace ∧
      (cfgW.db_insert = false → cfgW.db_update = false → dbE = []) := by
  refine ⟨rfl, ?_⟩
  obtain ⟨dbE, hs, _, _, hnone⟩ := claim_C2_commit_order cfgW envW rfl
  exact ⟨dbE, hs, hnone⟩

/-- C9: the four intermediate artifact paths and the final archive path are
pairwise distinct for every source, target, year flag and optional scan
date; and in every successful run each of the five paths is checked by the
Guard before it is written. -/
theorem claim_C9_distinct_guarded (cfg : Config) (env : Env) :
    List.Pairwise (fun a b => a ≠ b)
      [(make_paths cfg.source cfg.target).tar_path,
       (make_paths cfg.source cfg.target).zip_path,
       (make_paths cfg.source cfg.target).summary_path,
       (make_paths cfg.source cfg.target).log_path,
       resolve_archive_path cfg.target (make_paths cfg.source cfg.target).base_name
         cfg.year env.summary.info.scan_date] ∧
    ((main cfg env).result = .ok () →
      List.Sublist
        [Event.guardCheck (make_paths cfg.source cfg.target).tar_path,
         Event.writeTarFile (make_paths cfg.source cfg.target).tar_path
           (pack_tar (make_paths cfg.source cfg.target).arg_source env.listing)]
        (main cfg env).trace ∧
      List.Sublist
        [Event.guardCheck (make_paths cfg.source cfg.target).zip_path,
         Event.writeFile (make_paths cfg.source cfg.target).zip_path]
        (main cfg env).trace ∧
      List.Sublist
        [Event.guardCheck (make_paths cfg.source cfg.target).summary_path,
         Event.writeFile (make_paths cfg.source cfg.target).summary_path]
        (main cfg env).trace ∧
      List.Sublist
        [Event.guardCheck (make_paths cfg.source cfg.target).log_path,
         Event.writeFile (make_paths cfg.source cfg.target).log_path]
        (main cfg env).trace ∧
      List.Sublist
        [Event.guardCheck (resolve_archive_path cfg.target
           (make_paths cfg.source cfg.target).base_name cfg.year
           env.summary.info.scan_date),
         Event.writeTarFile (resolve_archive_path cfg.target
           (make_paths cfg.source cfg.target).base_name cfg.year
           env.summary.info.scan_date)
           (seal_entries (make_paths cfg.source cfg.target).zip_path
             (make_paths cfg.source cfg.target).summary_path
             (make_paths cfg.source cfg.target).log_path)]
        (main cfg env).trace) := by
  refine ⟨five_paths_pairwise_ne cfg.source cfg.target cfg.year env.summary.info.scan_date, ?_⟩
  intro h
  obtain ⟨w1, w2, w3, w4, mid, w7, dbE, htr, _, _, _⟩ := main_ok_trace cfg env h
  refine ⟨?_, ?_, ?_, ?_, ?_⟩ <;>
    rw [htr] <;>
    simp only [List.cons_append, List.append_assoc, List.nil_append]
  · exact List.Sublist.cons₂ _ (List.singleton_sublist.2 (by simp))
  · apply sublist_skip_cons
    apply sublist_skip_append
    exact List.Sublist.cons₂ _ (List.singleton_sublist.2 (by simp))
  · apply sublist_skip_cons
    apply sublist_skip_append
    apply sublist_skip_cons
    apply sublist_skip_append
    exact List.Sublist.cons₂ _ (List.singleton_sublist.2 (by simp))
  · apply sublist_skip_cons
    apply sublist_skip_append
    apply sublist_skip_cons
    apply sublist_skip_append
    apply sublist_skip_cons
    apply sublist_skip_append
    exact List.Sublist.cons₂ _ (List.singleton_sublist.2 (by simp))
  · apply sublist_skip_cons
    apply sublist_skip_append
    apply sublist_skip_cons
    apply sublist_skip_append
    apply sublist_skip_cons
    apply sublist_skip_append
    apply sublist_skip_cons
    apply sublist_skip_append
    apply sublist_skip_cons
    apply sublist_skip_cons
    apply sublist_skip_cons
    apply sublist_skip_cons
    apply sublist_skip_cons
    apply sublist_skip_append
    exact List.Sublist.cons₂ _ (List.singleton_sublist.2 (by simp))

/-- Witness for C9: the successful concrete run of `cfgW` on `envW`. -/
theorem claim_C9_distinct_guarded_witness :
    List.Pairwise (fun a b => a ≠ b)
      [(make_paths cfgW.source cfgW.target).tar_path,
       (make_paths cfgW.source cfgW.target).zip_path,
       (make_paths cfgW.source cfgW.target).summary_path,
       (make_paths cfgW.source cfgW.target).log_path,
       resolve_archive_path cfgW.target (make_paths cfgW.source cfgW.target).base_name
         cfgW.year envW.summary.info.scan_date] ∧
    List.Sublist
      [Event.guardCheck (make_paths cfgW.source cfgW.target).zip_path,
       Event.writeFile (make_paths cfgW.source cfgW.target).zip_path]
      (main cfgW envW).trace := by
  obtain ⟨hpw, hrest⟩ := claim_C9_distinct_guarded cfgW envW
  exact ⟨hpw, (hrest rfl).2.1⟩

/-- C7 (amended): a missing intermediate at Cleanup time makes the run abort
with an uncaught-error failure: the post-seal phase ends in an error, emits
no warning, performs no registry operation and leaves the registry
untouched. -/
theorem claim_C7_cleanup_fatal (cfg : Config) (env : Env) (dbar : Option (Nat × String))
    (log : DicomLog) (fs : List String) (p : Paths) (q : String)
    (hq : q ∈ [p.tar_path, p.zip_path, p.summary_path, p.log_path]) (hnot : q ∉ fs) :
    (∃ f, (finish_run cfg env dbar log fs p).result = .error f) ∧
    ((finish_run cfg env dbar log fs p).trace.all fun e => !e.isWarn) = true ∧
    ((finish_run cfg env dbar log fs p).trace.all fun e => !e.isRegistryWrite) = true ∧
    (finish_run cfg env dbar log fs p).registry = env.registry := by
  have hf := cleanup_fails_of_missing _ fs hq hnot
  rcases hcl : cleanup fs [p.tar_path, p.zip_path, p.summary_path, p.log_path]
    with ⟨evs, fs1, orf⟩
  rw [hcl] at hf
  cases orf with
  | none => simp at hf
  | some f =>
    have hevs : ∀ e ∈ evs, (!e.isWarn) = true ∧ (!e.isRegistryWrite) = true := by
      intro e he
      obtain ⟨qq, rfl⟩ := cleanup_events_shape _ fs e (by rw [hcl]; exact he)
      exact ⟨rfl, rfl⟩
    refine ⟨⟨f, by simp [finish_run, hcl]⟩, ?_, ?_, by simp [finish_run, hcl]⟩
    · simp only [finish_run, hcl, List.all_eq_true]
      intro e he
      exact (hevs e he).1
    · simp only [finish_run, hcl, List.all_eq_true]
      intro e he
      exact (hevs e he).2

/-- Counterexample for C7 as stated: with the tar intermediate already
missing when Cleanup runs, the post-seal phase aborts with an uncaught
`FileNotFoundError` (not a warning); the run does not complete
successfully. -/
theorem claim_C7_counterexample :
    (finish_run cfgW envW none (dicom_log_make "src/Sub" "t/DCM_Sub.tar" "H" "H")
        ["t/Sub.tar.gz", "t/Sub.meta", "t/Sub.log"] (make_paths "src/Sub" "t")).result
      = .error ⟨ExitCode.PYTHON_EXCEPTION, "FileNotFoundError: t/Sub.tar"⟩ ∧
    ((finish_run cfgW envW none (dicom_log_make "src/Sub" "t/DCM_Sub.tar" "H" "H")
        ["t/Sub.tar.gz", "t/Sub.meta", "t/Sub.log"] (make_paths "src/Sub" "t")).trace.all
      fun e => !e.isWarn) = true := ⟨rfl, rfl⟩

/-- Witness for the amended C7 at concrete inputs. -/
theorem claim_C7_cleanup_fatal_witness :
    (∃ f, (finish_run cfgW envW none (dicom_log_make "src/Sub" "t/DCM_Sub.tar" "H" "H")
        ["t/Sub.tar.gz", "t/Sub.meta", "t/Sub.log"] (make_paths "src/Sub" "t")).result
      = .error f) ∧
    ((finish_run cfgW envW none (dicom_log_make "src/Sub" "t/DCM_Sub.tar" "H" "H")
        ["t/Sub.tar.gz", "t/Sub.meta", "t/Sub.log"] (make_paths "src/Sub" "t")).trace.all
      fun e => !e.isWarn) = true ∧
    ((finish_run cfgW envW none (dicom_log_make "src/Sub" "t/DCM_Sub.tar" "H" "H")
        ["t/Sub.tar.gz", "t/Sub.meta", "t/Sub.log"] (make_paths "src/Sub" "t")).trace.all
      fun e => !e.isRegistryWrite) = true ∧
    (finish_run cfgW envW none (dicom_log_make "src/Sub" "t/DCM_Sub.tar" "H" "H")
        ["t/Sub.tar.gz", "t/Sub.meta", "t/Sub.log"] (make_paths "src/Sub" "t")).registry
      = envW.registry :=
  claim_C7_cleanup_fatal cfgW envW none (dicom_log_make "src/Sub" "t/DCM_Sub.tar" "H" "H")
    ["t/Sub.tar.gz", "t/Sub.meta", "t/Sub.log"] (make_paths "src/Sub" "t") "t/Sub.tar"
    (by decide) (by decide)

end DicomArchive
